import Mathlib

/-!
# ChatTrain security pipeline: a shallow embedding

This file embeds the security-critical core of the ChatTrain backend
(`src/backend/app/security/rate_limiter.py`, `masking.py`, `validator.py`
and the orchestrator `src/backend/app/secure_websocket.py`) as executable
Lean definitions, and proves the specification claims about them.

Modelling conventions:
* Python `float` timestamps and token counts are modelled as `ℚ`
  (the code only ever adds, subtracts, divides and compares them).
* Python exceptions (`RateLimitExceeded`, `ValidationError`) are modelled
  with `Except String`; the carried string is the exception message.
* Python dicts keyed by user/endpoint are modelled as association lists
  that keep first-insertion order, matching dict iteration order.
* `re` patterns (all compiled with `re.IGNORECASE`, the validator's also
  with `re.MULTILINE | re.DOTALL`) are embedded via a small backtracking
  matcher with Python's leftmost-match, greedy/lazy semantics.
-/

deriving instance DecidableEq for Except

namespace ChatTrain

/-! ## A tiny regex engine (CPython `re` semantics for the patterns used) -/

/-- Abstract syntax of the regular expressions compiled by `masking.py` and
`validator.py`.  `cls neg ranges` is a character class (negated when `neg`),
`rep a mn mx` is the greedy bounded repetition `a{mn,mx}`, `wordB` is `\b`,
and `eol` is `$` under `re.MULTILINE`. -/
inductive RE where
  | eps
  | cls (neg : Bool) (ranges : List (Char × Char))
  | seq (a b : RE)
  | alt (a b : RE)
  | opt (a : RE)
  | rep (a : RE) (mn mx : Nat)
  | star (a : RE)
  | lazyStar (a : RE)
  | wordB
  | eol
deriving Repr

/-- Python `\w` over ASCII input: letters, digits, underscore. -/
def isWordChar (c : Char) : Bool := c.isAlpha || c.isDigit || c = '_'

def inRanges (ranges : List (Char × Char)) (c : Char) : Bool :=
  ranges.any fun p => decide (p.1 ≤ c) && decide (c ≤ p.2)

/-- Character-class membership under `re.IGNORECASE`: a character matches if
any of its case variants lies in the class. -/
def clsMatch (neg : Bool) (ranges : List (Char × Char)) (c : Char) : Bool :=
  let hit := inRanges ranges c || inRanges ranges c.toLower || inRanges ranges c.toUpper
  if neg then !hit else hit

/-- Backtracking matcher in continuation-passing style.  `prev` is the
character just before the current position (for `\b`), `k` receives the new
`prev` and the rest of the input.  Alternatives are tried left to right,
`star`/`rep`/`opt` greedily and `lazyStar` lazily, which reproduces CPython's
backtracking order.  `fuel` only forces termination; it is always called with
enough fuel for the pattern sizes and inputs in this file. -/
def reMat (fuel : Nat) (r : RE) (prev : Option Char) (s : List Char)
    (k : Option Char → List Char → Option (List Char)) : Option (List Char) :=
  match fuel with
  | 0 => none
  | f + 1 =>
    match r with
    | .eps => k prev s
    | .cls neg rg =>
        match s with
        | [] => none
        | c :: rest => if clsMatch neg rg c then k (some c) rest else none
    | .seq a b => reMat f a prev s fun p2 s2 => reMat f b p2 s2 k
    | .alt a b => (reMat f a prev s k).orElse fun _ => reMat f b prev s k
    | .opt a => (reMat f a prev s k).orElse fun _ => k prev s
    | .rep a mn mx =>
        match mn, mx with
        | m + 1, x => reMat f a prev s fun p2 s2 => reMat f (.rep a m (x - 1)) p2 s2 k
        | 0, x + 1 =>
            (reMat f a prev s fun p2 s2 => reMat f (.rep a 0 x) p2 s2 k).orElse
              fun _ => k prev s
        | 0, 0 => k prev s
    | .star a =>
        (reMat f a prev s fun p2 s2 => reMat f (.star a) p2 s2 k).orElse
          fun _ => k prev s
    | .lazyStar a =>
        (k prev s).orElse fun _ =>
          reMat f a prev s fun p2 s2 => reMat f (.lazyStar a) p2 s2 k
    | .wordB =>
        let pw := match prev with | some c => isWordChar c | none => false
        let nw := match s with | c :: _ => isWordChar c | [] => false
        if pw != nw then k prev s else none
    | .eol =>
        match s with
        | [] => k prev s
        | c :: _ => if c = Char.ofNat 10 then k prev s else none

/-- Fuel that is ample for every pattern in this file. -/
def reFuel (s : List Char) : Nat := 100 * s.length + 400

/-- Try to match `r` at the current position; on success return the suffix
after the (leftmost-starting, backtracking-first) match. -/
def reTry (r : RE) (prev : Option Char) (s : List Char) : Option (List Char) :=
  reMat (reFuel s) r prev s fun _ rest => some rest

/-- `re.search`: does `r` match anywhere in the input? -/
def reSearchAux (fuel : Nat) (r : RE) (prev : Option Char) (s : List Char) : Bool :=
  match fuel with
  | 0 => false
  | f + 1 =>
    match reTry r prev s with
    | some _ => true
    | none =>
      match s with
      | [] => false
      | c :: rest => reSearchAux f r (some c) rest

def reSearch (r : RE) (s : String) : Bool := reSearchAux (s.length + 1) r none s.data

/-- Number of non-overlapping leftmost matches, as counted by `re.findall`. -/
def reCountAux (fuel : Nat) (r : RE) (prev : Option Char) (s : List Char) : Nat :=
  match fuel with
  | 0 => 0
  | f + 1 =>
    match reTry r prev s with
    | some rest =>
        if rest.length < s.length then
          1 + reCountAux f r ((s.take (s.length - rest.length)).getLast?) rest
        else
          match s with
          | [] => 1
          | c :: rest2 => 1 + reCountAux f r (some c) rest2
    | none =>
      match s with
      | [] => 0
      | c :: rest => reCountAux f r (some c) rest

def reCount (r : RE) (s : String) : Nat := reCountAux (s.length + 1) r none s.data

/-- `pattern.sub(repl, s)`: replace every non-overlapping leftmost match.
Subsequent matching context (`\b`) uses the original characters, as in
CPython, because scanning resumes on the untouched suffix with the last
matched character as `prev`. -/
def reSubAux (fuel : Nat) (r : RE) (repl : List Char) (prev : Option Char)
    (s : List Char) : List Char :=
  match fuel with
  | 0 => s
  | f + 1 =>
    match reTry r prev s with
    | some rest =>
        if rest.length < s.length then
          repl ++ reSubAux f r repl ((s.take (s.length - rest.length)).getLast?) rest
        else
          match s with
          | [] => repl
          | c :: rest2 => repl ++ c :: reSubAux f r repl (some c) rest2
    | none =>
      match s with
      | [] => []
      | c :: rest => c :: reSubAux f r repl (some c) rest

def reSub (r : RE) (repl : String) (s : String) : String :=
  ⟨reSubAux (s.length + 1) r repl.data none s.data⟩

/-! Pattern combinators. -/

def rchar (c : Char) : RE := .cls false [(c, c)]

def rstr (s : String) : RE := s.data.foldr (fun c acc => .seq (rchar c) acc) .eps

def rseq (rs : List RE) : RE := rs.foldr RE.seq RE.eps

/-- Python `\d`. -/
def rdigit : RE := .cls false [('0', '9')]

/-- Python `\s` (ASCII part: space, `\t`, `\n`, `\v`, `\f`, `\r`). -/
def rws : RE := .cls false [(' ', ' '), (Char.ofNat 9, Char.ofNat 13)]

def rplus (a : RE) : RE := .seq a (.star a)

/-! ## DataMasker (`src/backend/app/security/masking.py`)

The regex tables below transcribe `DataMasker.patterns` and
`DataMasker.exclusion_contexts` (masking.py lines 22-56), all compiled with
`re.IGNORECASE`. -/

/-- `[-\s]` -/
def sepBl : RE := .cls false [('-', '-'), (' ', ' '), (Char.ofNat 9, Char.ofNat 13)]

/-- `[-.\s]` -/
def sepDot : RE :=
  .cls false [('-', '-'), ('.', '.'), (' ', ' '), (Char.ofNat 9, Char.ofNat 13)]

/-- `\bAC-\d{6}\b` -/
def reAcct1 : RE := rseq [.wordB, rstr "AC-", .rep rdigit 6 6, .wordB]

/-- `\bACCT-\d{6,10}\b` -/
def reAcct2 : RE := rseq [.wordB, rstr "ACCT-", .rep rdigit 6 10, .wordB]

/-- `\bAccount\s*(?:number|#)?\s*:?\s*(\d{6,12})\b` (the capture group only
affects what `findall` returns, not which spans match or are replaced). -/
def reAcct3 : RE :=
  rseq [.wordB, rstr "Account", .star rws, .opt (.alt (rstr "number") (rchar '#')),
    .star rws, .opt (rchar ':'), .star rws, .rep rdigit 6 12, .wordB]

/-- `\b\d{4}[-\s]?\d{4}[-\s]?\d{4}[-\s]?\d{4}\b` -/
def reCard1 : RE :=
  rseq [.wordB, .rep rdigit 4 4, .opt sepBl, .rep rdigit 4 4, .opt sepBl,
    .rep rdigit 4 4, .opt sepBl, .rep rdigit 4 4, .wordB]

/-- `\b\d{15,16}\b` -/
def reCard2 : RE := rseq [.wordB, .rep rdigit 15 16, .wordB]

/-- `\b\d{3}[-.\s]?\d{3}[-.\s]?\d{4}\b` -/
def rePhone1 : RE :=
  rseq [.wordB, .rep rdigit 3 3, .opt sepDot, .rep rdigit 3 3, .opt sepDot,
    .rep rdigit 4 4, .wordB]

/-- `\(\d{3}\)\s*\d{3}[-.\s]?\d{4}\b` -/
def rePhone2 : RE :=
  rseq [rchar '(', .rep rdigit 3 3, rchar ')', .star rws, .rep rdigit 3 3,
    .opt sepDot, .rep rdigit 4 4, .wordB]

/-- `\b1[-.\s]?\d{3}[-.\s]?\d{3}[-.\s]?\d{4}\b` -/
def rePhone3 : RE :=
  rseq [.wordB, rchar '1', .opt sepDot, .rep rdigit 3 3, .opt sepDot,
    .rep rdigit 3 3, .opt sepDot, .rep rdigit 4 4, .wordB]

/-- `[A-Za-z0-9._%+-]` -/
def emailLocal : RE :=
  .cls false [('A', 'Z'), ('a', 'z'), ('0', '9'), ('.', '.'), ('_', '_'),
    ('%', '%'), ('+', '+'), ('-', '-')]

/-- `[A-Za-z0-9.-]` -/
def emailDomain : RE :=
  .cls false [('A', 'Z'), ('a', 'z'), ('0', '9'), ('.', '.'), ('-', '-')]

/-- `[A-Z|a-z]` — the source class literally includes the `|` character. -/
def emailTld : RE := .cls false [('A', 'Z'), ('|', '|'), ('a', 'z')]

/-- `\b[A-Za-z0-9._%+-]+@[A-Za-z0-9.-]+\.[A-Z|a-z]{2,}\b` -/
def reEmail : RE :=
  rseq [.wordB, rplus emailLocal, rchar '@', rplus emailDomain, rchar '.',
    emailTld, emailTld, .star emailTld, .wordB]

/-- `\b\d{3}[-.\s]?\d{2}[-.\s]?\d{4}\b` -/
def reSsn1 : RE :=
  rseq [.wordB, .rep rdigit 3 3, .opt sepDot, .rep rdigit 2 2, .opt sepDot,
    .rep rdigit 4 4, .wordB]

/-- `\bSSN\s*:?\s*\d{3}[-.\s]?\d{2}[-.\s]?\d{4}\b` -/
def reSsn2 : RE :=
  rseq [.wordB, rstr "SSN", .star rws, .opt (rchar ':'), .star rws,
    .rep rdigit 3 3, .opt sepDot, .rep rdigit 2 2, .opt sepDot,
    .rep rdigit 4 4, .wordB]

/-- `\bP-\d{6}\b` -/
def rePolicy1 : RE := rseq [.wordB, rstr "P-", .rep rdigit 6 6, .wordB]

/-- `\bPolicy\s*(?:number|#)?\s*:?\s*([A-Z]{1,3}-?\d{6,10})\b` -/
def rePolicy2 : RE :=
  rseq [.wordB, rstr "Policy", .star rws, .opt (.alt (rstr "number") (rchar '#')),
    .star rws, .opt (rchar ':'), .star rws, .rep (.cls false [('A', 'Z')]) 1 3,
    .opt (rchar '-'), .rep rdigit 6 10, .wordB]

/-- `DataMasker.patterns` in category (insertion) order, paired with the
source pattern text recorded in each masking-log entry. -/
def maskPatterns : List (String × List (String × RE)) :=
  [("ACCOUNT",
     [("\\bAC-\\d\x7b6\x7d\\b", reAcct1),
      ("\\bACCT-\\d\x7b6,10\x7d\\b", reAcct2),
      ("\\bAccount\\s*(?:number|#)?\\s*:?\\s*(\\d\x7b6,12\x7d)\\b", reAcct3)]),
   ("CARD",
     [("\\b\\d\x7b4\x7d[-\\s]?\\d\x7b4\x7d[-\\s]?\\d\x7b4\x7d[-\\s]?\\d\x7b4\x7d\\b", reCard1),
      ("\\b\\d\x7b15,16\x7d\\b", reCard2)]),
   ("PHONE",
     [("\\b\\d\x7b3\x7d[-.\\s]?\\d\x7b3\x7d[-.\\s]?\\d\x7b4\x7d\\b", rePhone1),
      ("\\(\\d\x7b3\x7d\\)\\s*\\d\x7b3\x7d[-.\\s]?\\d\x7b4\x7d\\b", rePhone2),
      ("\\b1[-.\\s]?\\d\x7b3\x7d[-.\\s]?\\d\x7b3\x7d[-.\\s]?\\d\x7b4\x7d\\b", rePhone3)]),
   ("EMAIL",
     [("\\b[A-Za-z0-9._%+-]+@[A-Za-z0-9.-]+\\.[A-Z|a-z]\x7b2,\x7d\\b", reEmail)]),
   ("SSN",
     [("\\b\\d\x7b3\x7d[-.\\s]?\\d\x7b2\x7d[-.\\s]?\\d\x7b4\x7d\\b", reSsn1),
      ("\\bSSN\\s*:?\\s*\\d\x7b3\x7d[-.\\s]?\\d\x7b2\x7d[-.\\s]?\\d\x7b4\x7d\\b", reSsn2)]),
   ("POLICY",
     [("\\bP-\\d\x7b6\x7d\\b", rePolicy1),
      ("\\bPolicy\\s*(?:number|#)?\\s*:?\\s*([A-Z]\x7b1,3\x7d-?\\d\x7b6,10\x7d)\\b", rePolicy2)])]

/-- `DataMasker.exclusion_contexts`. -/
def exclusionRegexes : List RE :=
  [rseq [rstr "test", rplus rws, rstr "account"],
   rseq [rstr "example", rplus rws, rstr "email"],
   rseq [rstr "sample", rplus rws, rstr "phone"],
   rseq [rstr "demo", rplus rws, rstr "card"]]

structure MaskConfig where
  maskingEnabled : Bool := true
  loggingEnabled : Bool := true
deriving DecidableEq, Repr

/-- One entry of the masking log.  The source also records a timestamp and
the match's length; neither affects any claim, so they are omitted here. -/
structure MaskLogEntry where
  category : String
  pattern : String
deriving DecidableEq, Repr

/-- `DataMasker._is_excluded_context` (masking.py lines 126-131). -/
def isExcludedContext (text : String) : Bool :=
  exclusionRegexes.any fun r => reSearch r text

/-- The replacement token built by `pattern.sub(f"{{{{{category}}}}}", ...)`:
two literal braces around the category name. -/
def maskToken (cat : String) : String := "\x7b\x7b" ++ cat ++ "\x7d\x7d"

/-- One iteration of the inner loop of `mask_sensitive_data` (masking.py
lines 98-122): the matches of one compiled pattern are counted on the
current text; if there is at least one, the loop body substitutes every
occurrence once per match and appends one log entry per match. -/
def maskApplyPattern (cat patSrc : String) (r : RE)
    (acc : String × List MaskLogEntry) : String × List MaskLogEntry :=
  let n := reCount r acc.1
  if n = 0 then acc
  else
    ((List.range n).foldl (fun t _ => reSub r (maskToken cat) t) acc.1,
     acc.2 ++ List.replicate n ⟨cat, patSrc⟩)

/-- `DataMasker.mask_sensitive_data` (masking.py lines 75-124). -/
def maskSensitiveData (cfg : MaskConfig) (text : String)
    (preserveContext : Bool) : String × List MaskLogEntry :=
  if cfg.maskingEnabled = false ∨ text = "" then (text, [])
  else if preserveContext = true ∧ isExcludedContext text = true then (text, [])
  else
    maskPatterns.foldl
      (fun acc cp => cp.2.foldl (fun acc2 pr => maskApplyPattern cp.1 pr.1 pr.2 acc2) acc)
      (text, [])

/-! ## InputValidator (`src/backend/app/security/validator.py`)

`validate_message` raising `ValidationError` is modelled with
`Except String`; the `None`/non-`str` checks have no counterpart for a
typed `String` argument. -/

structure VConfig where
  maxMessageLength : ℕ := 2000
  maxMetadataSize : ℕ := 1000
deriving DecidableEq, Repr

/-- `[^>]` -/
def notGt : RE := .cls true [('>', '>')]

/-- `.` under `re.DOTALL`: any character. -/
def rany : RE := .cls true []

/-- `\w` -/
def rword : RE := .cls false [('A', 'Z'), ('a', 'z'), ('0', '9'), ('_', '_')]

/-- `InputValidator.malicious_patterns` (validator.py lines 29-54), paired
with their source text; compiled with `IGNORECASE | MULTILINE | DOTALL`. -/
def maliciousPatterns : List (String × RE) :=
  [("<script[^>]*>.*?</script>",
    rseq [rstr "<script", .star notGt, rchar '>', .lazyStar rany, rstr "</script>"]),
   ("javascript:", rstr "javascript:"),
   ("on\\w+\\s*=", rseq [rstr "on", rplus rword, .star rws, rchar '=']),
   ("<iframe[^>]*>", rseq [rstr "<iframe", .star notGt, rchar '>']),
   ("<object[^>]*>", rseq [rstr "<object", .star notGt, rchar '>']),
   ("<embed[^>]*>", rseq [rstr "<embed", .star notGt, rchar '>']),
   ("<link[^>]*>", rseq [rstr "<link", .star notGt, rchar '>']),
   ("<meta[^>]*>", rseq [rstr "<meta", .star notGt, rchar '>']),
   ("(?:union|select|insert|update|delete|drop|create|alter)\\s+",
    rseq [.alt (rstr "union") (.alt (rstr "select") (.alt (rstr "insert")
      (.alt (rstr "update") (.alt (rstr "delete") (.alt (rstr "drop")
      (.alt (rstr "create") (rstr "alter"))))))), rplus rws]),
   ("(?:or|and)\\s+\\d+\\s*=\\s*\\d+",
    rseq [.alt (rstr "or") (rstr "and"), rplus rws, rplus rdigit, .star rws,
      rchar '=', .star rws, rplus rdigit]),
   ("'\\s*(?:or|and)\\s*'",
    rseq [rchar (Char.ofNat 39), .star rws, .alt (rstr "or") (rstr "and"),
      .star rws, rchar (Char.ofNat 39)]),
   ("--\\s*$", rseq [rstr "--", .star rws, .eol]),
   ("/\\*.*?\\*/", rseq [rstr "/*", .lazyStar rany, rstr "*/"]),
   ("(?:;|&&|\\|\\|)\\s*(?:rm|cat|ls|pwd|whoami|id)",
    rseq [.alt (rchar ';') (.alt (rstr "&&") (rstr "||")), .star rws,
      .alt (rstr "rm") (.alt (rstr "cat") (.alt (rstr "ls") (.alt (rstr "pwd")
        (.alt (rstr "whoami") (rstr "id")))))]),
   ("(?:\\$\\(|\\`)", .alt (rstr "$(") (rchar (Char.ofNat 96))),
   ("\\.\\.[\\\\/]", rseq [rstr "..", .cls false [('\\', '\\'), ('/', '/')]]),
   ("(?:etc/passwd|windows/system32)",
    .alt (rstr "etc/passwd") (rstr "windows/system32"))]

/-- Substring test used by `_classify_pattern` (`keyword in pattern`). -/
def strContainsAux (needle : List Char) : Nat → List Char → Bool
  | 0, _ => false
  | f + 1, hay =>
      if needle.isPrefixOf hay then true
      else
        match hay with
        | [] => false
        | _ :: rest => strContainsAux needle f rest

def strContains (hay needle : String) : Bool :=
  strContainsAux needle.data (hay.length + 1) hay.data

def strLower (s : String) : String := ⟨s.data.map Char.toLower⟩

/-- `InputValidator._classify_pattern` (validator.py lines 162-174). -/
def classifyPattern (pat : String) : String :=
  let p := strLower pat
  if ["script", "javascript", "iframe"].any (fun k => strContains p k) then "XSS"
  else if ["union", "select", "insert"].any (fun k => strContains p k) then "SQL_INJECTION"
  else if ["rm", "cat", "ls"].any (fun k => strContains p k) then "COMMAND_INJECTION"
  else if ["..", "etc/passwd"].any (fun k => strContains p k) then "PATH_TRAVERSAL"
  else "SUSPICIOUS"

structure BlockedPat where
  pattern : String
  matchCount : ℕ
  ptype : String
deriving DecidableEq, Repr

/-- `InputValidator._check_malicious_patterns` (validator.py lines 143-160).
Note the source counts matches against the *original* content but
substitutes into the running sanitized text. -/
def checkMaliciousPatterns (content : String) : String × List BlockedPat :=
  maliciousPatterns.foldl
    (fun acc pr =>
      let n := reCount pr.2 content
      if n = 0 then acc
      else (reSub pr.2 "[BLOCKED]" acc.1, acc.2 ++ [⟨pr.1, n, classifyPattern pr.1⟩]))
    (content, [])

/-- ASCII part of Python `\s` / `str.strip()` whitespace. -/
def isPyWs (c : Char) : Bool := c = ' ' || (Char.ofNat 9 ≤ c && c ≤ Char.ofNat 13)

/-- `re.sub(r'\s+', ' ', content)`: collapse each maximal whitespace run to a
single space.  The flag records whether we are inside a run. -/
def collapseWsAux : Bool → List Char → List Char
  | _, [] => []
  | inWs, c :: rest =>
      if isPyWs c then
        if inWs then collapseWsAux true rest else ' ' :: collapseWsAux true rest
      else c :: collapseWsAux false rest

def pyStrip (l : List Char) : List Char :=
  ((l.dropWhile isPyWs).reverse.dropWhile isPyWs).reverse

/-- `re.sub(r'[\x00-\x08\x0B\x0C\x0E-\x1F\x7F]', '', content)` -/
def stripControl (l : List Char) : List Char :=
  l.filter fun c =>
    !(decide (c ≤ Char.ofNat 8) || c = Char.ofNat 11 || c = Char.ofNat 12 ||
      (decide (Char.ofNat 14 ≤ c) && decide (c ≤ Char.ofNat 31)) || c = Char.ofNat 127)

/-- `InputValidator._normalize_whitespace` (validator.py lines 176-187). -/
def normalizeWhitespace (s : String) : String :=
  ⟨stripControl (pyStrip (collapseWsAux false s.data))⟩

/-- `html.escape(content)` with `quote=True`, as called by `_sanitize_html`. -/
def escChar (c : Char) : List Char :=
  if c = '&' then "&amp;".data
  else if c = '<' then "&lt;".data
  else if c = '>' then "&gt;".data
  else if c = Char.ofNat 34 then "&quot;".data
  else if c = Char.ofNat 39 then "&#x27;".data
  else [c]

def htmlEscape (s : String) : String := ⟨s.data.foldr (fun c acc => escChar c ++ acc) []⟩

/-- `&[lg]t;[^&]*&[lg]t;` -/
def reHtmlEsc : RE :=
  rseq [rchar '&', .cls false [('g', 'g'), ('l', 'l')], rstr "t;",
    .star (.cls true [('&', '&')]), rchar '&', .cls false [('g', 'g'), ('l', 'l')],
    rstr "t;"]

/-- `InputValidator._sanitize_html` (validator.py lines 189-199); returns the
escaped text and the optional warning. -/
def sanitizeHtml (s : String) : String × Option String :=
  let esc := htmlEscape s
  let n := reCount reHtmlEsc esc
  (esc, if n = 0 then none else some ("Escaped " ++ toString n ++ " HTML-like patterns"))

/-- A metadata dict; values are rendered to strings since only sizes and key
names are inspected. -/
def Metadata := List (String × String)
deriving instance DecidableEq for Metadata

/-- Models `len(str(metadata))` for an ASCII-rendering dict: two braces plus,
per entry, four quotes, a colon-space, and a comma-space separator amortized
as a fixed overhead of 8 characters. -/
def metadataStrLength (m : Metadata) : ℕ :=
  2 + m.foldl (fun acc kv => acc + kv.1.length + kv.2.length + 8) 0

/-- `InputValidator._validate_metadata` (validator.py lines 207-223): size
check then suspicious-key warnings. -/
def validateMetadata (cfg : VConfig) (m : Metadata) : Except String (List String) :=
  if cfg.maxMetadataSize < metadataStrLength m then
    .error ("Metadata too large: " ++ toString (metadataStrLength m) ++
      " chars (max: " ++ toString cfg.maxMetadataSize ++ ")")
  else
    .ok (m.foldl
      (fun ws kv =>
        if ["__", "eval", "exec", "import"].any (fun d => strContains (strLower kv.1) d)
        then ws ++ ["Suspicious metadata key: " ++ kv.1] else ws) [])

structure VReport where
  originalLength : ℕ
  sanitizedLength : ℕ
  warnings : List String
  blockedPatterns : List BlockedPat
deriving DecidableEq, Repr

/-- `InputValidator.validate_message` (validator.py lines 77-141). -/
def validateMessage (cfg : VConfig) (content : String) (metadata : Metadata) :
    Except String (String × VReport) :=
  if cfg.maxMessageLength < content.length then
    .error ("Message too long: " ++ toString content.length ++ " chars (max: " ++
      toString cfg.maxMessageLength ++ ")")
  else
    let r1 := checkMaliciousPatterns content
    let s2 := normalizeWhitespace r1.1
    let r3 := sanitizeHtml s2
    -- `_encode_dangerous_chars` is the identity (validator.py lines 201-205)
    match (if metadata = ([] : List (String × String)) then .ok [] else validateMetadata cfg metadata :
        Except String (List String)) with
    | .error m => .error m
    | .ok metaWarns =>
        let warnings := (match r3.2 with | some w => [w] | none => []) ++ metaWarns
        .ok (r3.1, ⟨content.length, r3.1.length, warnings, r1.2⟩)

/-- The prompt-injection patterns of `is_safe_for_llm` (validator.py lines
271-278), with their source text. -/
def injectionPatterns : List (String × RE) :=
  [("ignore\\s+(?:previous|all)\\s+instructions",
    rseq [rstr "ignore", rplus rws, .alt (rstr "previous") (rstr "all"),
      rplus rws, rstr "instructions"]),
   ("you\\s+are\\s+now\\s+a\\s+different",
    rseq [rstr "you", rplus rws, rstr "are", rplus rws, rstr "now", rplus rws,
      rstr "a", rplus rws, rstr "different"]),
   ("roleplay\\s+as\\s+", rseq [rstr "roleplay", rplus rws, rstr "as", rplus rws]),
   ("pretend\\s+(?:you\\s+are|to\\s+be)",
    rseq [rstr "pretend", rplus rws,
      .alt (rseq [rstr "you", rplus rws, rstr "are"])
           (rseq [rstr "to", rplus rws, rstr "be"])]),
   ("system\\s*:\\s*", rseq [rstr "system", .star rws, rchar ':', .star rws]),
   ("(?:assistant|ai)\\s*:\\s*",
    rseq [.alt (rstr "assistant") (rstr "ai"), .star rws, rchar ':', .star rws])]

/-- `InputValidator.is_safe_for_llm` (validator.py lines 262-284). -/
def isSafeForLLM (content : String) : Bool × List String :=
  let w1 := if 1500 < content.length then ["Content may exceed LLM context limits"] else []
  let ws := injectionPatterns.foldl
    (fun acc pr =>
      if reSearch pr.2 content then acc ++ ["Potential prompt injection: " ++ pr.1]
      else acc) w1
  (ws.isEmpty, ws)

/-- `InputValidator.validate_session_data` (validator.py lines 225-260) for
the dict `{"user_id": userId, "type": msgType}` built by the orchestrator:
both fields validate, and an unknown type only adds a warning. -/
def validateSessionData (msgType : String) : List String :=
  if msgType ∈ ["user_message", "assistant_message", "session_start", "evaluation_feedback"]
  then [] else ["Unknown message type: " ++ msgType]

/-! ## RateLimiter (`src/backend/app/security/rate_limiter.py`)

State is held in association lists that keep first-insertion order (the
nested dicts `buckets[user][endpoint]` are flattened to a single
`(user, endpoint)` key, which preserves every lookup/update/delete the code
performs).  `check_rate_limit` raising `RateLimitExceeded` is the
`Except.error` case of the returned value. -/

/-- First-match lookup in an association list. -/
def alookup {α β : Type} [DecidableEq α] : List (α × β) → α → Option β
  | [], _ => none
  | kv :: rest, a => if kv.1 = a then some kv.2 else alookup rest a

/-- Replace the first binding of `a` (keeping its position, as a Python dict
does) or append a new one. -/
def aupsert {α β : Type} [DecidableEq α] : List (α × β) → α → β → List (α × β)
  | [], a, b => [(a, b)]
  | kv :: rest, a, b => if kv.1 = a then (a, b) :: rest else kv :: aupsert rest a b

structure Bucket where
  tokens : ℚ
  lastRefill : ℚ
deriving DecidableEq, Repr

structure HistEntry where
  endpoint : String
  timestamp : ℚ
  allowed : Bool
deriving DecidableEq, Repr

structure RLState where
  requestsPerMinute : ℕ
  burstAllowance : ℕ
  buckets : List ((String × String) × Bucket)
  history : List (String × List HistEntry)
  lastCleanup : ℚ
deriving DecidableEq, Repr

/-- A freshly constructed `RateLimiter()` under the default environment
(`RATE_LIMIT_REQUESTS_PER_MINUTE=20`, `RATE_LIMIT_BURST_ALLOWANCE=5`),
built at time `now` (rate_limiter.py lines 23-47). -/
def initRL (now : ℚ) : RLState := ⟨20, 5, [], [], now⟩

/-- `self.endpoint_limits` plus the `.get(endpoint, requests_per_minute)`
default lookup (rate_limiter.py lines 29-34 and 71). -/
def endpointLimits (rpm : ℕ) (e : String) : ℕ :=
  if e = "websocket_message" then rpm
  else if e = "api_request" then rpm * 2
  else if e = "login" then 10
  else if e = "feedback" then rpm / 2
  else rpm

def bucketOf (s : RLState) (u e : String) : Option Bucket := alookup s.buckets (u, e)

def histOf (s : RLState) (u : String) : List HistEntry := (alookup s.history u).getD []

/-- `RateLimiter._refill_bucket` (rate_limiter.py lines 112-122). -/
def refillBucket (burst : ℕ) (b : Bucket) (limit : ℕ) (now : ℚ) : Bucket :=
  ⟨min ((limit : ℚ) + (burst : ℚ)) (b.tokens + (now - b.lastRefill) / 60 * (limit : ℚ)), now⟩

/-- `RateLimiter._get_reset_time` (rate_limiter.py lines 124-131): `none`
models the `"Not applicable"` branch. -/
def getResetTime (rpm : ℕ) (tokens now : ℚ) : Option ℚ :=
  if 1 ≤ tokens then none else some (now + 60 / (rpm : ℚ))

/-- `RateLimiter._format_rate_limit_error` (rate_limiter.py lines 133-139);
the rendering of the reset timestamp is omitted from the message. -/
def fmtRateLimitError (u e : String) (limit : ℕ) : String :=
  "Rate limit exceeded for user " ++ u ++ " on " ++ e ++ ". Limit: " ++
    toString limit ++ " requests per minute."

/-- `RateLimiter._cleanup_old_entries` (rate_limiter.py lines 157-183):
prune history entries older than one hour (dropping users left empty) and
delete buckets idle for more than one hour. -/
def cleanupOldEntries (s : RLState) (now : ℚ) : RLState :=
  { s with
    history := (s.history.map fun p =>
        (p.1, p.2.filter fun en => decide (now - 3600 < en.timestamp))).filter
        fun p => !p.2.isEmpty,
    buckets := s.buckets.filter fun p => decide (now - p.2.lastRefill ≤ 3600) }

/-- `RateLimiter._log_request` (rate_limiter.py lines 141-155). -/
def logRequest (s : RLState) (u e : String) (now : ℚ) (ok : Bool) : RLState :=
  { s with
    history := aupsert s.history u
      ((histOf s u).filter (fun en => decide (now - 3600 < en.timestamp)) ++
        [⟨e, now, ok⟩]) }

/-- The `rate_limit_info` dict (rate_limiter.py lines 86-93); the wall-clock
`timestamp` field is omitted. -/
structure RateInfo where
  userId : String
  endpoint : String
  limit : ℕ
  tokensRemaining : ℚ
  resetTime : Option ℚ
deriving DecidableEq, Repr

def setBucket (s : RLState) (u e : String) (b : Bucket) : RLState :=
  { s with buckets := aupsert s.buckets (u, e) b }

/-- `RateLimiter.check_rate_limit` (rate_limiter.py lines 49-110): optional
cleanup sweep, bucket init/refill, then either consume one token and return
`(True, info)` or raise `RateLimitExceeded`. -/
def checkRateLimit (s : RLState) (u e : String) (now : ℚ) :
    RLState × Except String (Bool × RateInfo) :=
  let s1 := if 300 < now - s.lastCleanup
            then { cleanupOldEntries s now with lastCleanup := now } else s
  let limit := endpointLimits s1.requestsPerMinute e
  let b0 := (bucketOf s1 u e).getD ⟨(limit : ℚ), now⟩
  let b1 := refillBucket s1.burstAllowance b0 limit now
  let info : RateInfo := ⟨u, e, limit, b1.tokens, getResetTime s1.requestsPerMinute b1.tokens now⟩
  if 1 ≤ b1.tokens then
    (logRequest (setBucket s1 u e ⟨b1.tokens - 1, b1.lastRefill⟩) u e now true,
     .ok (true, info))
  else
    (logRequest (setBucket s1 u e b1) u e now false,
     .error (fmtRateLimitError u e limit))

/-- `get_user_stats` token-bucket detail: endpoint, remaining tokens, limit,
reset estimate. -/
structure UserStats where
  userId : String
  requestsLastMinute : ℕ
  totalRequestsLastHour : ℕ
  tokenBuckets : List (String × ℚ × ℕ × Option ℚ)
deriving DecidableEq, Repr

/-- `RateLimiter.get_user_stats` (rate_limiter.py lines 185-215).  Note the
source *updates each of the user's buckets in place* via `_refill_bucket`
before reporting. -/
def getUserStats (s : RLState) (u : String) (now : ℚ) : RLState × UserStats :=
  let recent := histOf s u
  let recentCount := (recent.filter fun en => decide (now - 60 < en.timestamp)).length
  let newBuckets := s.buckets.map fun p =>
    if p.1.1 = u then
      (p.1, refillBucket s.burstAllowance p.2 (endpointLimits s.requestsPerMinute p.1.2) now)
    else p
  let tokenInfo := (newBuckets.filter fun p => decide (p.1.1 = u)).map fun p =>
    (p.1.2, p.2.tokens, endpointLimits s.requestsPerMinute p.1.2,
     getResetTime s.requestsPerMinute p.2.tokens now)
  ({ s with buckets := newBuckets }, ⟨u, recentCount, recent.length, tokenInfo⟩)

structure SystemStats where
  activeUsers : ℕ
  requestsPerMinuteSystem : ℕ
  totalRequestsLastHour : ℕ
  systemCapacity : ℕ
  loadPercentage : ℚ
deriving DecidableEq, Repr

/-- `RateLimiter.get_system_stats` (rate_limiter.py lines 217-242): derived
counters only, no mutation.  `activeUsers` counts distinct users holding a
bucket (`len(self.buckets)` over the nested dict). -/
def getSystemStats (s : RLState) (now : ℚ) : RLState × SystemStats :=
  let activeUsers := (s.buckets.map fun p => p.1.1).dedup.length
  let total := s.history.foldl (fun acc p => acc + p.2.length) 0
  let recent := s.history.foldl
    (fun acc p => acc + (p.2.filter fun en => decide (now - 60 < en.timestamp)).length) 0
  (s, ⟨activeUsers, recent, total, s.requestsPerMinute * 5,
    (recent : ℚ) / ((s.requestsPerMinute : ℚ) * 5) * 100⟩)

/-- `RateLimiter.reset_user_limits` (rate_limiter.py lines 244-261). -/
def resetUserLimits (s : RLState) (u : String) (es : Option String) (now : ℚ) : RLState :=
  match es with
  | some e =>
      if (bucketOf s u e).isSome then
        setBucket s u e ⟨(endpointLimits s.requestsPerMinute e : ℚ), now⟩
      else s
  | none =>
      { s with
        buckets := s.buckets.filter fun p => decide (p.1.1 ≠ u),
        history := s.history.filter fun p => decide (p.1 ≠ u) }

/-- `RateLimiter.is_user_blocked` (rate_limiter.py lines 263-269): run the
check; on a normal return answer `not allowed`, on `RateLimitExceeded`
answer `True`. -/
def isUserBlocked (s : RLState) (u e : String) (now : ℚ) : RLState × Bool :=
  let c := checkRateLimit s u e now
  (c.1, match c.2 with | .ok r => !r.1 | .error _ => true)

/-! ## Association-list lemmas -/

theorem alookup_aupsert {α β : Type} [DecidableEq α] (l : List (α × β)) (k : α) (v : β)
    (k2 : α) :
    alookup (aupsert l k v) k2 = if k = k2 then some v else alookup l k2 := by
  induction l with
  | nil => simp [aupsert, alookup]
  | cons kv rest ih =>
      by_cases h : kv.1 = k
      · simp [aupsert, h, alookup]
        by_cases h2 : k = k2 <;> simp [h2]
      · simp only [aupsert, if_neg h, alookup]
        by_cases h2 : kv.1 = k2
        · have : ¬ k = k2 := fun hk => h (hk ▸ h2)
          simp [h2, this]
        · simp [h2, ih]

theorem alookup_aupsert_self {α β : Type} [DecidableEq α] (l : List (α × β)) (k : α) (v : β) :
    alookup (aupsert l k v) k = some v := by
  simp [alookup_aupsert]

theorem alookup_aupsert_ne {α β : Type} [DecidableEq α] (l : List (α × β)) (k : α) (v : β)
    (k2 : α) (h : k ≠ k2) :
    alookup (aupsert l k v) k2 = alookup l k2 := by
  simp [alookup_aupsert, h]

theorem mem_aupsert {α β : Type} [DecidableEq α] (l : List (α × β)) (k : α) (v : β)
    (p : α × β) (hp : p ∈ aupsert l k v) : p = (k, v) ∨ p ∈ l := by
  induction l with
  | nil => simpa [aupsert] using hp
  | cons kv rest ih =>
      by_cases h : kv.1 = k
      · rw [aupsert, if_pos h] at hp
        rcases List.mem_cons.1 hp with h1 | h1
        · exact Or.inl h1
        · exact Or.inr (List.mem_cons_of_mem _ h1)
      · rw [aupsert, if_neg h] at hp
        rcases List.mem_cons.1 hp with h1 | h1
        · exact Or.inr (h1 ▸ List.mem_cons_self _ _)
        · rcases ih h1 with h2 | h2
          · exact Or.inl h2
          · exact Or.inr (List.mem_cons_of_mem _ h2)

theorem alookup_mem {α β : Type} [DecidableEq α] (l : List (α × β)) (k : α) (v : β)
    (h : alookup l k = some v) : (k, v) ∈ l := by
  induction l with
  | nil => simp [alookup] at h
  | cons kv rest ih =>
      obtain ⟨k1, v1⟩ := kv
      by_cases hk : k1 = k
      · subst hk
        rw [alookup, if_pos rfl] at h
        cases h
        exact List.mem_cons_self _ _
      · rw [alookup, if_neg hk] at h
        exact List.mem_cons_of_mem _ (ih h)

/-! ## Rate-limiter step lemmas

`checkBody` isolates the part of `check_rate_limit` that determines the
returned value and the stored bucket once the optional cleanup sweep has
been resolved: it is a function of the configuration, the caller's own
bucket, and the current time only. -/

def checkBody (rpm burst : ℕ) (ob : Option Bucket) (u e : String) (now : ℚ) :
    Except String (Bool × RateInfo) :=
  let limit := endpointLimits rpm e
  let b1 := refillBucket burst (ob.getD ⟨(limit : ℚ), now⟩) limit now
  if 1 ≤ b1.tokens then
    .ok (true, ⟨u, e, limit, b1.tokens, getResetTime rpm b1.tokens now⟩)
  else
    .error (fmtRateLimitError u e limit)

/-- The bucket stored back by `check_rate_limit` (post refill and, when the
request is admitted, post consumption). -/
def checkPost (rpm burst : ℕ) (ob : Option Bucket) (e : String) (now : ℚ) : Bucket :=
  let limit := endpointLimits rpm e
  let b1 := refillBucket burst (ob.getD ⟨(limit : ℚ), now⟩) limit now
  if 1 ≤ b1.tokens then ⟨b1.tokens - 1, b1.lastRefill⟩ else b1

theorem check_snd_noclean (s : RLState) (u e : String) (now : ℚ)
    (h : ¬ 300 < now - s.lastCleanup) :
    (checkRateLimit s u e now).2 =
      checkBody s.requestsPerMinute s.burstAllowance (bucketOf s u e) u e now := by
  rw [checkRateLimit, if_neg h, checkBody]
  split <;> rfl

theorem check_state_noclean (s : RLState) (u e : String) (now : ℚ)
    (h : ¬ 300 < now - s.lastCleanup) :
    (checkRateLimit s u e now).1 =
      logRequest
        (setBucket s u e (checkPost s.requestsPerMinute s.burstAllowance (bucketOf s u e) e now))
        u e now
        (match checkBody s.requestsPerMinute s.burstAllowance (bucketOf s u e) u e now with
         | .ok _ => true | .error _ => false) := by
  rw [checkRateLimit, if_neg h, checkPost, checkBody]
  split <;> rfl

theorem check_noclean_rpm (s : RLState) (u e : String) (now : ℚ)
    (h : ¬ 300 < now - s.lastCleanup) :
    (checkRateLimit s u e now).1.requestsPerMinute = s.requestsPerMinute ∧
    (checkRateLimit s u e now).1.burstAllowance = s.burstAllowance ∧
    (checkRateLimit s u e now).1.lastCleanup = s.lastCleanup := by
  rw [check_state_noclean s u e now h]
  exact ⟨rfl, rfl, rfl⟩

theorem check_noclean_other_bucket (s : RLState) (u e : String) (now : ℚ)
    (h : ¬ 300 < now - s.lastCleanup) (v e2 : String) (hv : v ≠ u) :
    bucketOf (checkRateLimit s u e now).1 v e2 = bucketOf s v e2 := by
  rw [check_state_noclean s u e now h]
  unfold bucketOf logRequest setBucket
  refine alookup_aupsert_ne _ _ _ _ ?_
  intro hEq
  exact hv (congrArg Prod.fst hEq).symm

theorem check_noclean_other_hist (s : RLState) (u e : String) (now : ℚ)
    (h : ¬ 300 < now - s.lastCleanup) (v : String) (hv : v ≠ u) :
    histOf (checkRateLimit s u e now).1 v = histOf s v := by
  rw [check_state_noclean s u e now h]
  unfold histOf logRequest setBucket
  simp only
  rw [alookup_aupsert_ne _ _ _ _ (Ne.symm hv)]

/-- The state after the optional cleanup sweep at the top of
`check_rate_limit` (rate_limiter.py lines 66-68). -/
def cleanState (s : RLState) (now : ℚ) : RLState :=
  if 300 < now - s.lastCleanup then { cleanupOldEntries s now with lastCleanup := now } else s

theorem check_snd_eq (s : RLState) (u e : String) (now : ℚ) :
    (checkRateLimit s u e now).2 =
      checkBody (cleanState s now).requestsPerMinute (cleanState s now).burstAllowance
        (bucketOf (cleanState s now) u e) u e now := by
  rw [checkRateLimit, checkBody, cleanState]
  split <;> (first | (split <;> rfl))

theorem check_fst_eq (s : RLState) (u e : String) (now : ℚ) :
    (checkRateLimit s u e now).1 =
      logRequest
        (setBucket (cleanState s now) u e
          (checkPost (cleanState s now).requestsPerMinute (cleanState s now).burstAllowance
            (bucketOf (cleanState s now) u e) e now))
        u e now
        (match checkBody (cleanState s now).requestsPerMinute (cleanState s now).burstAllowance
            (bucketOf (cleanState s now) u e) u e now with
         | .ok _ => true | .error _ => false) := by
  rw [checkRateLimit, checkBody, checkPost, cleanState]
  split <;> (first | (split <;> rfl))

/-- A sequence of `check_rate_limit` calls by one user (endpoint, time). -/
def runCalls (s : RLState) (u : String) : List (String × ℚ) → RLState
  | [] => s
  | c :: rest => runCalls (checkRateLimit s u c.1 c.2).1 u rest

/-- Holds when no call of the sequence triggers the periodic cleanup sweep,
i.e. each call happens within `cleanup_interval` (300 s) of `last_cleanup`. -/
def noSweep (s : RLState) (u : String) : List (String × ℚ) → Bool
  | [] => true
  | c :: rest =>
      !(decide (300 < c.2 - s.lastCleanup)) &&
        noSweep (checkRateLimit s u c.1 c.2).1 u rest

theorem runCalls_preserves (u v : String) (hv : v ≠ u) :
    ∀ (calls : List (String × ℚ)) (s : RLState), noSweep s u calls = true →
      (runCalls s u calls).requestsPerMinute = s.requestsPerMinute ∧
      (runCalls s u calls).burstAllowance = s.burstAllowance ∧
      (runCalls s u calls).lastCleanup = s.lastCleanup ∧
      (∀ e2, bucketOf (runCalls s u calls) v e2 = bucketOf s v e2) ∧
      histOf (runCalls s u calls) v = histOf s v := by
  intro calls
  induction calls with
  | nil => exact fun s _ => ⟨rfl, rfl, rfl, fun _ => rfl, rfl⟩
  | cons c rest ih =>
      intro s hns
      rw [noSweep, Bool.and_eq_true, Bool.not_eq_true', decide_eq_false_iff_not] at hns
      obtain ⟨h1, h2⟩ := hns
      have hfields := check_noclean_rpm s u c.1 c.2 h1
      have hrest := ih (checkRateLimit s u c.1 c.2).1 h2
      refine ⟨?_, ?_, ?_, ?_, ?_⟩
      · rw [runCalls, hrest.1, hfields.1]
      · rw [runCalls, hrest.2.1, hfields.2.1]
      · rw [runCalls, hrest.2.2.1, hfields.2.2]
      · intro e2
        rw [runCalls, hrest.2.2.2.1 e2, check_noclean_other_bucket s u c.1 c.2 h1 v e2 hv]
      · rw [runCalls, hrest.2.2.2.2, check_noclean_other_hist s u c.1 c.2 h1 v hv]

/-! ## Claim C1: rate-limiter user isolation -/

/-- **C1** (amended).  For distinct users `u1 ≠ u2`, any sequence of
`check_rate_limit` calls by `u1` *that never triggers the periodic cleanup
sweep* leaves `u2`'s buckets and request history untouched, and every
subsequent sweep-free `check_rate_limit` call of `u2` returns exactly the
outcome (admission decision and rate-limit info, including remaining
tokens) it would have returned had `u1` made no calls.  (The unamended
claim fails: a sweep triggered by `u1`'s call can delete `u2`'s idle
bucket and reset the sweep clock, changing `u2`'s later reported tokens —
see the counterexample.) -/
theorem rateLimiter_user_isolation (s : RLState) (u1 u2 : String) (h12 : u1 ≠ u2)
    (calls : List (String × ℚ)) (hns : noSweep s u1 calls = true) :
    (∀ e, bucketOf (runCalls s u1 calls) u2 e = bucketOf s u2 e) ∧
    histOf (runCalls s u1 calls) u2 = histOf s u2 ∧
    (∀ e now, ¬ 300 < now - s.lastCleanup →
      (checkRateLimit (runCalls s u1 calls) u2 e now).2 =
        (checkRateLimit s u2 e now).2) := by
  have hp := runCalls_preserves u1 u2 (Ne.symm h12) calls s hns
  refine ⟨hp.2.2.2.1, hp.2.2.2.2, ?_⟩
  intro e now hnc
  have hnc2 : ¬ 300 < now - (runCalls s u1 calls).lastCleanup := by
    rw [hp.2.2.1]; exact hnc
  rw [check_snd_noclean _ _ _ _ hnc2, check_snd_noclean _ _ _ _ hnc,
    hp.1, hp.2.1, hp.2.2.2.1 e]

section
set_option allowUnsafeReducibility true
attribute [local semireducible] Rat.add Rat.sub Rat.mul Rat.inv Rat.div Rat.neg
set_option maxRecDepth 4000

/-- Witness for `rateLimiter_user_isolation` at a concrete input: one
sweep-free call by `alice` leaves `bob`'s bucket untouched. -/
theorem rateLimiter_user_isolation_witness :
    ("alice" : String) ≠ "bob" ∧
    noSweep (initRL 0) "alice" [("websocket_message", 10)] = true ∧
    bucketOf (runCalls (initRL 0) "alice" [("websocket_message", 10)]) "bob" "websocket_message"
      = bucketOf (initRL 0) "bob" "websocket_message" :=
  ⟨by decide, by decide,
   (rateLimiter_user_isolation (initRL 0) "alice" "bob" (by decide) _ (by decide)).1
     "websocket_message"⟩

/-- Counterexample to C1 as frozen: starting from a limiter where `bob`
called at time 0, a single call by `alice` at time 3500 (which triggers the
cleanup sweep, keeps `bob`'s 3500-second-idle bucket and resets the sweep
clock) changes the outcome of `bob`'s next check at time 3700 — with
`alice`'s call it reports 25 remaining tokens, without it the sweep fires
during `bob`'s own call, deletes his stale bucket, and reports 20 after
re-initialisation. -/
theorem rateLimiter_user_isolation_counterexample :
    ("alice" : String) ≠ "bob" ∧
    (checkRateLimit
        (runCalls (checkRateLimit (initRL 0) "bob" "websocket_message" 0).1
          "alice" [("websocket_message", 3500)])
        "bob" "websocket_message" 3700).2 ≠
      (checkRateLimit
        (runCalls (checkRateLimit (initRL 0) "bob" "websocket_message" 0).1
          "alice" [])
        "bob" "websocket_message" 3700).2 := by
  decide

end

/-! ## Claim C10: admission is signalled by the return value, denial by the
exception -/

theorem check_ok_flag (s : RLState) (u e : String) (now : ℚ) (r : Bool × RateInfo)
    (h : (checkRateLimit s u e now).2 = .ok r) : r.1 = true := by
  rw [check_snd_eq] at h
  rw [checkBody] at h
  split at h
  · cases h; rfl
  · cases h

theorem bucketOf_logRequest (s : RLState) (u2 e2 : String) (now : ℚ) (ok : Bool)
    (u e : String) : bucketOf (logRequest s u2 e2 now ok) u e = bucketOf s u e := rfl

theorem bucketOf_setBucket_self (s : RLState) (u e : String) (b : Bucket) :
    bucketOf (setBucket s u e b) u e = some b := by
  unfold bucketOf setBucket
  exact alookup_aupsert_self _ _ _

theorem check_ok_consumes (s : RLState) (u e : String) (now : ℚ) (r : Bool × RateInfo)
    (h : (checkRateLimit s u e now).2 = .ok r) :
    bucketOf (checkRateLimit s u e now).1 u e = some ⟨r.2.tokensRemaining - 1, now⟩ := by
  rw [check_snd_eq] at h
  rw [check_fst_eq, bucketOf_logRequest]
  rw [bucketOf_setBucket_self]
  rw [checkBody] at h
  rw [checkPost]
  split at h
  · next hc =>
      cases h
      rw [if_pos hc]
      rfl
  · cases h

theorem isUserBlocked_iff_raises (s : RLState) (u e : String) (now : ℚ) :
    (isUserBlocked s u e now).2 = true ↔
      ∃ m, (checkRateLimit s u e now).2 = .error m := by
  cases hc : (checkRateLimit s u e now).2 with
  | ok r =>
      have hflag : r.1 = true := check_ok_flag s u e now r hc
      simp [isUserBlocked, hc, hflag]
  | error m =>
      simp [isUserBlocked, hc]

/-- **C10.**  `check_rate_limit` never returns a denial: whenever it returns
normally the `allowed` flag is `true` and exactly one token has been
consumed from the caller's refreshed bucket (the stored tokens are the
reported `tokens_remaining` minus one, with `last_refill` set to the call
time); denial is signalled exclusively by raising `RateLimitExceeded`, and
`is_user_blocked` returns `true` exactly when the underlying check
raises. -/
theorem checkRateLimit_denies_only_by_raising :
    (∀ (s : RLState) (u e : String) (now : ℚ) (r : Bool × RateInfo),
        (checkRateLimit s u e now).2 = .ok r →
          r.1 = true ∧
          bucketOf (checkRateLimit s u e now).1 u e =
            some ⟨r.2.tokensRemaining - 1, now⟩) ∧
    (∀ (s : RLState) (u e : String) (now : ℚ),
        (isUserBlocked s u e now).2 = true ↔
          ∃ m, (checkRateLimit s u e now).2 = .error m) :=
  ⟨fun s u e now r h => ⟨check_ok_flag s u e now r h, check_ok_consumes s u e now r h⟩,
   isUserBlocked_iff_raises⟩

section
set_option allowUnsafeReducibility true
attribute [local semireducible] Rat.add Rat.sub Rat.mul Rat.inv Rat.div Rat.neg

/-- Witness for `checkRateLimit_denies_only_by_raising` at a concrete
admitted call and at a concrete exhausted state. -/
theorem checkRateLimit_denies_only_by_raising_witness :
    (checkRateLimit (initRL 0) "u" "websocket_message" 0).2 =
      .ok (true, ⟨"u", "websocket_message", 20, 20, none⟩) ∧
    (true = true ∧
      bucketOf (checkRateLimit (initRL 0) "u" "websocket_message" 0).1 "u" "websocket_message" =
        some ⟨(20 : ℚ) - 1, 0⟩) ∧
    ((isUserBlocked (initRL 0) "u" "websocket_message" 0).2 = true ↔
      ∃ m, (checkRateLimit (initRL 0) "u" "websocket_message" 0).2 = .error m) :=
  ⟨by decide,
   checkRateLimit_denies_only_by_raising.1 (initRL 0) "u" "websocket_message" 0
     (true, ⟨"u", "websocket_message", 20, 20, none⟩) (by decide),
   checkRateLimit_denies_only_by_raising.2 (initRL 0) "u" "websocket_message" 0⟩

end

/-! ## Claim C2: token-bucket invariant and refill monotonicity -/

/-- The bucket invariant of §3 of the spec, for every bucket in the table:
`0 ≤ tokens ≤ limit + burst`, where `limit` is the bucket's endpoint's
configured limit. -/
def WF (s : RLState) : Prop :=
  ∀ p ∈ s.buckets,
    0 ≤ p.2.tokens ∧
    p.2.tokens ≤ (endpointLimits s.requestsPerMinute p.1.2 : ℚ) + (s.burstAllowance : ℚ)

/-- Clock monotonicity: every stored bucket was last refilled no later than
`now`.  (`time.time()` is assumed non-decreasing across calls.) -/
def TimeOK (s : RLState) (now : ℚ) : Prop :=
  ∀ p ∈ s.buckets, p.2.lastRefill ≤ now

theorem refill_bounds (burst : ℕ) (b : Bucket) (L : ℕ) (now : ℚ)
    (h0 : 0 ≤ b.tokens) (ht : b.lastRefill ≤ now) :
    0 ≤ (refillBucket burst b L now).tokens ∧
      (refillBucket burst b L now).tokens ≤ (L : ℚ) + (burst : ℚ) := by
  unfold refillBucket
  refine ⟨le_min (by positivity) ?_, min_le_left _ _⟩
  have hadd : 0 ≤ (now - b.lastRefill) / 60 * (L : ℚ) := by
    have h1 : 0 ≤ now - b.lastRefill := sub_nonneg.2 ht
    positivity
  linarith

theorem cleanState_rpm (s : RLState) (now : ℚ) :
    (cleanState s now).requestsPerMinute = s.requestsPerMinute := by
  unfold cleanState; split <;> rfl

theorem cleanState_burst (s : RLState) (now : ℚ) :
    (cleanState s now).burstAllowance = s.burstAllowance := by
  unfold cleanState; split <;> rfl

theorem cleanState_buckets_sub (s : RLState) (now : ℚ) (p : (String × String) × Bucket)
    (hp : p ∈ (cleanState s now).buckets) : p ∈ s.buckets := by
  unfold cleanState at hp
  split at hp
  · exact List.mem_of_mem_filter hp
  · exact hp

theorem WF_cleanState (s : RLState) (now : ℚ) (h : WF s) : WF (cleanState s now) := by
  intro p hp
  rw [cleanState_rpm, cleanState_burst]
  exact h p (cleanState_buckets_sub s now p hp)

theorem TimeOK_cleanState (s : RLState) (now : ℚ) (h : TimeOK s now) :
    TimeOK (cleanState s now) now :=
  fun p hp => h p (cleanState_buckets_sub s now p hp)

theorem checkPost_bounds (rpm burst : ℕ) (ob : Option Bucket) (e : String) (now : ℚ)
    (hb : ∀ b, ob = some b → 0 ≤ b.tokens ∧ b.lastRefill ≤ now) :
    0 ≤ (checkPost rpm burst ob e now).tokens ∧
      (checkPost rpm burst ob e now).tokens ≤ (endpointLimits rpm e : ℚ) + (burst : ℚ) := by
  have hb0 : 0 ≤ (ob.getD ⟨(endpointLimits rpm e : ℚ), now⟩).tokens ∧
      (ob.getD ⟨(endpointLimits rpm e : ℚ), now⟩).lastRefill ≤ now := by
    cases ob with
    | none => exact ⟨Nat.cast_nonneg _, le_refl _⟩
    | some b => simpa using hb b rfl
  have h1 := refill_bounds burst (ob.getD ⟨(endpointLimits rpm e : ℚ), now⟩)
    (endpointLimits rpm e) now hb0.1 hb0.2
  rw [checkPost]
  split
  · next hc =>
      refine ⟨?_, ?_⟩ <;> dsimp only
      · linarith [hc]
      · linarith [h1.2]
  · exact h1

theorem check_rpm (s : RLState) (u e : String) (now : ℚ) :
    (checkRateLimit s u e now).1.requestsPerMinute = s.requestsPerMinute := by
  rw [check_fst_eq]
  show (cleanState s now).requestsPerMinute = s.requestsPerMinute
  exact cleanState_rpm s now

theorem check_burst (s : RLState) (u e : String) (now : ℚ) :
    (checkRateLimit s u e now).1.burstAllowance = s.burstAllowance := by
  rw [check_fst_eq]
  show (cleanState s now).burstAllowance = s.burstAllowance
  exact cleanState_burst s now

theorem WF_check (s : RLState) (u e : String) (now : ℚ)
    (hWF : WF s) (hT : TimeOK s now) : WF (checkRateLimit s u e now).1 := by
  intro p hp
  rw [check_rpm, check_burst]
  rw [check_fst_eq] at hp
  have hp2 : p ∈ aupsert (cleanState s now).buckets (u, e)
      (checkPost (cleanState s now).requestsPerMinute (cleanState s now).burstAllowance
        (bucketOf (cleanState s now) u e) e now) := hp
  have hWFc := WF_cleanState s now hWF
  have hTc := TimeOK_cleanState s now hT
  rcases mem_aupsert _ _ _ _ hp2 with h1 | h1
  · subst h1
    have hb : ∀ b, bucketOf (cleanState s now) u e = some b →
        0 ≤ b.tokens ∧ b.lastRefill ≤ now := by
      intro b hbEq
      have hmem := alookup_mem _ _ _ hbEq
      exact ⟨(hWFc _ hmem).1, hTc _ hmem⟩
    dsimp only
    rw [cleanState_rpm, cleanState_burst]
    exact checkPost_bounds s.requestsPerMinute s.burstAllowance
      (bucketOf (cleanState s now) u e) e now hb
  · have hbd := hWFc p h1
    rw [cleanState_rpm, cleanState_burst] at hbd
    exact hbd

theorem WF_reset (s : RLState) (u : String) (es : Option String) (now : ℚ)
    (hWF : WF s) : WF (resetUserLimits s u es now) := by
  cases es with
  | some e =>
      rw [resetUserLimits]
      split
      · intro p hp
        have hrpm : (setBucket s u e
            ⟨(endpointLimits s.requestsPerMinute e : ℚ), now⟩).requestsPerMinute =
            s.requestsPerMinute := rfl
        have hbst : (setBucket s u e
            ⟨(endpointLimits s.requestsPerMinute e : ℚ), now⟩).burstAllowance =
            s.burstAllowance := rfl
        rw [hrpm, hbst]
        rcases mem_aupsert _ _ _ _ hp with h1 | h1
        · subst h1
          exact ⟨Nat.cast_nonneg _, le_add_of_nonneg_right (Nat.cast_nonneg _)⟩
        · exact hWF p h1
      · exact hWF
  | none =>
      intro p hp
      exact hWF p (List.mem_of_mem_filter hp)

theorem WF_userStats (s : RLState) (u : String) (now : ℚ)
    (hWF : WF s) (hT : TimeOK s now) : WF (getUserStats s u now).1 := by
  intro p hp
  rcases List.mem_map.1 hp with ⟨q, hq, hpq⟩
  by_cases hu : q.1.1 = u
  · rw [if_pos hu] at hpq
    subst hpq
    exact ⟨(refill_bounds _ _ _ _ (hWF q hq).1 (hT q hq)).1,
      (refill_bounds _ _ _ _ (hWF q hq).1 (hT q hq)).2⟩
  · rw [if_neg hu] at hpq
    subst hpq
    exact hWF q hq

/-- **C2.**  The token-bucket invariant `0 ≤ tokens ≤ limit + burst` (limit
being the bucket's endpoint's configured limit) is preserved by every
operation — `check_rate_limit` (which also covers `_refill_bucket` and
bucket initialisation), `reset_user_limits`, `get_user_stats` (which
refills in place) and `get_system_stats` — under the clock-monotonicity
assumption `TimeOK`; `_refill_bucket` keeps tokens within `[0, limit+burst]`
and the refilled token count is monotonically non-decreasing in the elapsed
time. -/
theorem tokenBucket_invariant :
    (∀ (burst : ℕ) (b : Bucket) (L : ℕ) (t1 t2 : ℚ), t1 ≤ t2 →
        (refillBucket burst b L t1).tokens ≤ (refillBucket burst b L t2).tokens) ∧
    (∀ (burst : ℕ) (b : Bucket) (L : ℕ) (now : ℚ), 0 ≤ b.tokens → b.lastRefill ≤ now →
        0 ≤ (refillBucket burst b L now).tokens ∧
          (refillBucket burst b L now).tokens ≤ (L : ℚ) + (burst : ℚ)) ∧
    (∀ (s : RLState) (u e : String) (now : ℚ), WF s → TimeOK s now →
        WF (checkRateLimit s u e now).1) ∧
    (∀ (s : RLState) (u : String) (es : Option String) (now : ℚ), WF s →
        WF (resetUserLimits s u es now)) ∧
    (∀ (s : RLState) (u : String) (now : ℚ), WF s → TimeOK s now →
        WF (getUserStats s u now).1) ∧
    (∀ (s : RLState) (now : ℚ), WF s → WF (getSystemStats s now).1) := by
  refine ⟨?_, refill_bounds, WF_check, WF_reset, WF_userStats, fun s now h => h⟩
  intro burst b L t1 t2 h12
  unfold refillBucket
  refine min_le_min (le_refl _) ?_
  have h : (t1 - b.lastRefill) / 60 * (L : ℚ) ≤ (t2 - b.lastRefill) / 60 * (L : ℚ) := by
    refine mul_le_mul_of_nonneg_right ?_ (Nat.cast_nonneg L)
    have h60 : (0 : ℚ) < 60 := by norm_num
    exact (div_le_div_iff_of_pos_right h60).2 (by linarith)
  linarith

section
set_option allowUnsafeReducibility true
attribute [local semireducible] Rat.add Rat.sub Rat.mul Rat.inv Rat.div Rat.neg

/-- Witness for `tokenBucket_invariant`: refill monotonicity at concrete
times, and invariant preservation through a concrete admitted check (whose
`WF`/`TimeOK` hypotheses hold vacuously for the fresh limiter). -/
theorem tokenBucket_invariant_witness :
    (refillBucket 5 ⟨19, 0⟩ 20 60).tokens ≤ (refillBucket 5 ⟨19, 0⟩ 20 120).tokens ∧
    WF (checkRateLimit (initRL 0) "u" "websocket_message" 0).1 :=
  ⟨tokenBucket_invariant.1 5 ⟨19, 0⟩ 20 60 120 (by norm_num),
   tokenBucket_invariant.2.2.1 (initRL 0) "u" "websocket_message" 0
     (fun p hp => absurd hp (List.not_mem_nil p))
     (fun p hp => absurd hp (List.not_mem_nil p))⟩

end

/-! ## Claim C7: ordering of the configured endpoint limits -/

/-- **C7** (amended).  In the default configuration the chat-message
endpoint's limit (20/min) is strictly lower than the generic API endpoint's
(40/min); the login endpoint's limit (10/min) is *lowest but tied with the
feedback endpoint* (`20 // 2 = 10`), not strictly lowest; and every
unknown endpoint receives the default per-minute limit.  (The frozen
claim's "strictly the lowest" fails on the tie with `feedback` — see the
counterexample.) -/
theorem endpointLimits_ordering :
    endpointLimits 20 "websocket_message" < endpointLimits 20 "api_request" ∧
    (∀ e, e ∈ ["websocket_message", "api_request", "login", "feedback"] →
      endpointLimits 20 "login" ≤ endpointLimits 20 e) ∧
    (∀ e, e ∉ ["websocket_message", "api_request", "login", "feedback"] →
      endpointLimits 20 e = 20) := by
  refine ⟨by decide, ?_, ?_⟩
  · intro e he
    fin_cases he <;> decide
  · intro e he
    have h1 : e ≠ "websocket_message" := fun h => he (h ▸ by norm_num)
    have h2 : e ≠ "api_request" := fun h => he (h ▸ by norm_num)
    have h3 : e ≠ "login" := fun h => he (h ▸ by norm_num)
    have h4 : e ≠ "feedback" := fun h => he (h ▸ by norm_num)
    rw [endpointLimits, if_neg h1, if_neg h2, if_neg h3, if_neg h4]

/-- Witness for `endpointLimits_ordering` at concrete endpoints. -/
theorem endpointLimits_ordering_witness :
    endpointLimits 20 "login" ≤ endpointLimits 20 "feedback" ∧
    endpointLimits 20 "unknown_endpoint" = 20 :=
  ⟨endpointLimits_ordering.2.1 "feedback" (by decide),
   endpointLimits_ordering.2.2 "unknown_endpoint" (by decide)⟩

/-- Counterexample to C7 as frozen: the login limit is *not* strictly below
every other configured limit — the feedback endpoint is also 10/min
(`requests_per_minute // 2` with the default 20), so the required strict
inequality fails there. -/
theorem endpointLimits_ordering_counterexample :
    endpointLimits 20 "feedback" = 10 ∧ endpointLimits 20 "login" = 10 ∧
    ¬ endpointLimits 20 "login" < endpointLimits 20 "feedback" := by
  decide

/-! ## Claim C3: limit 20 + burst 5, 25 rapid checks, recovery after 60 s -/

/-- `n` consecutive `check_rate_limit` calls by one user on one endpoint at
a fixed time, recording `True` for an admitted call and `False` for a
`RateLimitExceeded` raise (the scenario of §8 of the spec and of
`test_rate_limiter`). -/
def runChecks (s : RLState) (u e : String) (now : ℚ) : ℕ → RLState × List Bool
  | 0 => (s, [])
  | n + 1 =>
      let p := runChecks s u e now n
      let c := checkRateLimit p.1 u e now
      (c.1, p.2 ++ [match c.2 with | .ok _ => true | .error _ => false])

theorem checkBody_ok (rpm burst : ℕ) (ob : Option Bucket) (u e : String) (now : ℚ)
    (h : 1 ≤ (refillBucket burst (ob.getD ⟨(endpointLimits rpm e : ℚ), now⟩)
      (endpointLimits rpm e) now).tokens) :
    ∃ info, checkBody rpm burst ob u e now = .ok (true, info) := by
  rw [checkBody, if_pos h]
  exact ⟨_, rfl⟩

/-- The limiter state after 25 rapid checks for `"u1"` at time 0: the bucket
is exhausted (0 tokens) and the history records 20 admitted then 5 denied
requests. -/
def c3Exhausted : RLState :=
  ⟨20, 5, [(("u1", "websocket_message"), ⟨0, 0⟩)],
   [("u1", List.replicate 20 ⟨"websocket_message", 0, true⟩ ++
      List.replicate 5 ⟨"websocket_message", 0, false⟩)], 0⟩

section
set_option allowUnsafeReducibility true
attribute [local semireducible] Rat.add Rat.sub Rat.mul Rat.inv Rat.div Rat.neg
set_option maxRecDepth 8000

theorem c3_run_state :
    (runChecks (initRL 0) "u1" "websocket_message" 0 25).1 = c3Exhausted := by
  decide

theorem c3_run_results :
    (runChecks (initRL 0) "u1" "websocket_message" 0 25).2 =
      List.replicate 20 true ++ List.replicate 5 false := by
  decide

end

theorem c3_refill_ge_one (d : ℚ) (hd : 60 ≤ d) :
    1 ≤ (refillBucket 5 (Bucket.mk 0 0) 20 d).tokens := by
  rw [refillBucket]
  dsimp only
  have he : (0 : ℚ) + (d - 0) / 60 * ((20 : ℕ) : ℚ) = d / 3 := by
    push_cast
    ring
  rw [he]
  refine le_min (by norm_num) (by linarith)

theorem c3_recovery (d : ℚ) (hd : 60 ≤ d) :
    ∃ info, (checkRateLimit c3Exhausted "u1" "websocket_message" d).2 =
      .ok (true, info) := by
  rw [check_snd_eq, cleanState_rpm, cleanState_burst]
  have hrpm : c3Exhausted.requestsPerMinute = 20 := rfl
  have hbst : c3Exhausted.burstAllowance = 5 := rfl
  rw [hrpm, hbst]
  have hlim : endpointLimits 20 "websocket_message" = 20 := by norm_num [endpointLimits]
  by_cases h1 : (300 : ℚ) < d
  · by_cases h2 : d ≤ (3600 : ℚ)
    · have hb : bucketOf (cleanState c3Exhausted d) "u1" "websocket_message" =
          some ⟨0, 0⟩ := by
        simp [cleanState, cleanupOldEntries, bucketOf, alookup, c3Exhausted, h1, h2]
      rw [hb]
      apply checkBody_ok
      rw [hlim]
      exact c3_refill_ge_one d hd
    · have hb : bucketOf (cleanState c3Exhausted d) "u1" "websocket_message" =
          none := by
        simp [cleanState, cleanupOldEntries, bucketOf, alookup, c3Exhausted, h1, h2]
      rw [hb]
      apply checkBody_ok
      rw [hlim, refillBucket]
      dsimp only [Option.getD]
      have he : ((20 : ℕ) : ℚ) + (d - d) / 60 * ((20 : ℕ) : ℚ) = 20 := by
        push_cast
        ring
      rw [he]
      exact le_min (by norm_num) (by norm_num)
  · have hb : bucketOf (cleanState c3Exhausted d) "u1" "websocket_message" =
        some ⟨0, 0⟩ := by
      simp [cleanState, bucketOf, alookup, c3Exhausted, h1]
    rw [hb]
    apply checkBody_ok
    rw [hlim]
    exact c3_refill_ge_one d hd

/-- **C3.**  With the default configuration (`limit = 20`, `burst = 5`), a
fresh user making 25 `check_rate_limit` calls on one endpoint with no
elapsed time gets the first 20 admitted (within the claim's 20–25 range)
and every later call raises `RateLimitExceeded`; and after at least 60
seconds of simulated elapsed time with no intervening calls, the next
check for that user and endpoint is admitted again. -/
theorem rateLimit_exhaustion_and_recovery :
    (runChecks (initRL 0) "u1" "websocket_message" 0 25).2 =
      List.replicate 20 true ++ List.replicate 5 false ∧
    (∀ d : ℚ, 60 ≤ d →
      ∃ info, (checkRateLimit (runChecks (initRL 0) "u1" "websocket_message" 0 25).1
        "u1" "websocket_message" d).2 = .ok (true, info)) := by
  refine ⟨c3_run_results, ?_⟩
  intro d hd
  rw [c3_run_state]
  exact c3_recovery d hd

/-- Witness for `rateLimit_exhaustion_and_recovery` at the concrete elapsed
time `d = 60`. -/
theorem rateLimit_exhaustion_and_recovery_witness :
    (60 : ℚ) ≤ 60 ∧
    ∃ info, (checkRateLimit (runChecks (initRL 0) "u1" "websocket_message" 0 25).1
      "u1" "websocket_message" 60).2 = .ok (true, info) :=
  ⟨le_refl 60, rateLimit_exhaustion_and_recovery.2 60 (le_refl 60)⟩

/-! ## Claim C8: statistics queries and the limiter's authoritative state -/

theorem refill_refill (burst : ℕ) (b : Bucket) (L : ℕ) (t now : ℚ)
    (h2 : t ≤ now) :
    refillBucket burst (refillBucket burst b L t) L now = refillBucket burst b L now := by
  unfold refillBucket
  dsimp only
  congr 1
  have ha2 : 0 ≤ (now - t) / 60 * (L : ℚ) := by
    have hnn : 0 ≤ now - t := sub_nonneg.2 h2
    positivity
  rcases le_total (b.tokens + (t - b.lastRefill) / 60 * (L : ℚ)) ((L : ℚ) + (burst : ℚ))
    with hle | hge
  · rw [min_eq_right hle]
    have hsum : b.tokens + (t - b.lastRefill) / 60 * (L : ℚ) + (now - t) / 60 * (L : ℚ) =
        b.tokens + (now - b.lastRefill) / 60 * (L : ℚ) := by ring
    rw [hsum]
  · rw [min_eq_left hge]
    have hsum : b.tokens + (now - b.lastRefill) / 60 * (L : ℚ) =
        b.tokens + (t - b.lastRefill) / 60 * (L : ℚ) + (now - t) / 60 * (L : ℚ) := by ring
    rw [min_eq_left (by linarith), hsum, min_eq_left (by linarith)]

theorem alookup_refillMap (u : String) (f : (String × String) → Bucket → Bucket)
    (k : String × String) :
    ∀ l : List ((String × String) × Bucket),
      alookup (l.map fun p => if p.1.1 = u then (p.1, f p.1 p.2) else p) k =
        if k.1 = u then (alookup l k).map (f k) else alookup l k := by
  intro l
  induction l with
  | nil => by_cases hk : k.1 = u <;> simp [alookup, hk]
  | cons q rest ih =>
      by_cases hq : q.1.1 = u
      · rw [List.map_cons, if_pos hq]
        by_cases hk : q.1 = k
        · have hk1 : k.1 = u := by rw [← hk]; exact hq
          rw [alookup, if_pos hk, if_pos hk1, alookup, if_pos hk, Option.map_some']
          rw [hk]
        · rw [alookup, if_neg hk, ih]
          by_cases hk1 : k.1 = u
          · rw [if_pos hk1, if_pos hk1, alookup, if_neg hk]
          · rw [if_neg hk1, if_neg hk1, alookup, if_neg hk]
      · rw [List.map_cons, if_neg hq]
        by_cases hk : q.1 = k
        · have hk1 : ¬ k.1 = u := by rw [← hk]; exact hq
          rw [alookup, if_pos hk, if_neg hk1, alookup, if_pos hk]
        · rw [alookup, if_neg hk, ih]
          by_cases hk1 : k.1 = u
          · rw [if_pos hk1, if_pos hk1, alookup, if_neg hk]
          · rw [if_neg hk1, if_neg hk1, alookup, if_neg hk]

theorem bucketOf_getUserStats (s : RLState) (u : String) (t : ℚ) (v e : String) :
    bucketOf (getUserStats s u t).1 v e =
      if v = u then
        (bucketOf s v e).map
          (fun b => refillBucket s.burstAllowance b (endpointLimits s.requestsPerMinute e) t)
      else bucketOf s v e := by
  have h := alookup_refillMap u
    (fun key b => refillBucket s.burstAllowance b (endpointLimits s.requestsPerMinute key.2) t)
    (v, e) s.buckets
  exact h

/-- **C8** (amended).  `get_system_stats` is a genuinely read-only view: it
leaves the limiter state unchanged.  `get_user_stats`, however, refills the
queried user's buckets *in place* (so the frozen claim's "bucket contents
unchanged" is false — see the counterexample); what holds is that it leaves
history and the sweep clock unchanged and is outcome-invisible: under
monotone timestamps, any later sweep-free `check_rate_limit` call (for any
user and endpoint) returns exactly the same outcome, and leaves the checked
bucket in exactly the same state, as if the statistics had not been
queried. -/
theorem statsQueries_readonly :
    (∀ (s : RLState) (now : ℚ), (getSystemStats s now).1 = s) ∧
    (∀ (s : RLState) (u : String) (t : ℚ),
        (getUserStats s u t).1.history = s.history ∧
        (getUserStats s u t).1.lastCleanup = s.lastCleanup) ∧
    (∀ (s : RLState) (u : String) (t : ℚ) (v e : String) (now : ℚ),
        t ≤ now → ¬ 300 < now - s.lastCleanup →
        (checkRateLimit (getUserStats s u t).1 v e now).2 =
          (checkRateLimit s v e now).2 ∧
        bucketOf (checkRateLimit (getUserStats s u t).1 v e now).1 v e =
          bucketOf (checkRateLimit s v e now).1 v e) := by
  refine ⟨fun s now => rfl, fun s u t => ⟨rfl, rfl⟩, ?_⟩
  intro s u t v e now ht hnc
  have hnc2 : ¬ 300 < now - (getUserStats s u t).1.lastCleanup := hnc
  have hrpm : (getUserStats s u t).1.requestsPerMinute = s.requestsPerMinute := rfl
  have hbst : (getUserStats s u t).1.burstAllowance = s.burstAllowance := rfl
  constructor
  · rw [check_snd_noclean _ _ _ _ hnc2, check_snd_noclean _ _ _ _ hnc]
    rw [hrpm, hbst, bucketOf_getUserStats]
    by_cases hv : v = u
    · rw [if_pos hv]
      cases hb : bucketOf s v e with
      | none => rw [Option.map_none']
      | some b =>
          rw [Option.map_some']
          rw [checkBody, checkBody]
          rw [Option.getD_some, Option.getD_some,
            refill_refill s.burstAllowance b (endpointLimits s.requestsPerMinute e) t now ht]
    · rw [if_neg hv]
  · rw [check_state_noclean _ _ _ _ hnc2, check_state_noclean _ _ _ _ hnc]
    rw [bucketOf_logRequest, bucketOf_logRequest,
      bucketOf_setBucket_self, bucketOf_setBucket_self]
    rw [hrpm, hbst, bucketOf_getUserStats]
    by_cases hv : v = u
    · rw [if_pos hv]
      cases hb : bucketOf s v e with
      | none => rw [Option.map_none']
      | some b =>
          rw [Option.map_some']
          rw [checkPost, checkPost]
          rw [Option.getD_some, Option.getD_some,
            refill_refill s.burstAllowance b (endpointLimits s.requestsPerMinute e) t now ht]
    · rw [if_neg hv]

section
set_option allowUnsafeReducibility true
attribute [local semireducible] Rat.add Rat.sub Rat.mul Rat.inv Rat.div Rat.neg

/-- Counterexample to C8 as frozen: querying `get_user_stats` at time 60 on
a limiter holding a bucket with 5 tokens last refilled at time 0 *changes*
the stored bucket (it becomes 25 tokens, last refill 60), so the
authoritative state is not left unchanged. -/
theorem statsQueries_readonly_counterexample :
    (getUserStats (⟨20, 5, [(("u", "websocket_message"), ⟨5, 0⟩)], [], 0⟩ : RLState)
        "u" 60).1 ≠
      (⟨20, 5, [(("u", "websocket_message"), ⟨5, 0⟩)], [], 0⟩ : RLState) := by
  decide

/-- Witness for `statsQueries_readonly`: after a stats query at time 60 on a
concrete one-bucket limiter, the outcome of the next check at time 90, and
the bucket it leaves behind, are identical to those without the query. -/
theorem statsQueries_readonly_witness :
    (checkRateLimit
        (getUserStats (⟨20, 5, [(("u", "websocket_message"), ⟨5, 0⟩)], [], 0⟩ : RLState)
          "u" 60).1 "u" "websocket_message" 90).2 =
      (checkRateLimit (⟨20, 5, [(("u", "websocket_message"), ⟨5, 0⟩)], [], 0⟩ : RLState)
        "u" "websocket_message" 90).2 ∧
    bucketOf (checkRateLimit
        (getUserStats (⟨20, 5, [(("u", "websocket_message"), ⟨5, 0⟩)], [], 0⟩ : RLState)
          "u" 60).1 "u" "websocket_message" 90).1 "u" "websocket_message" =
      bucketOf (checkRateLimit (⟨20, 5, [(("u", "websocket_message"), ⟨5, 0⟩)], [], 0⟩ : RLState)
        "u" "websocket_message" 90).1 "u" "websocket_message" :=
  statsQueries_readonly.2.2 ⟨20, 5, [(("u", "websocket_message"), ⟨5, 0⟩)], [], 0⟩
    "u" 60 "u" "websocket_message" 90 (by norm_num) (by norm_num)

end

/-! ## Claim C6: context exclusion skips masking entirely -/

/-- **C6.**  If a text matches an exclusion-context phrase, then
`mask_sensitive_data` with `preserve_context=True` returns it unchanged
with an empty masking log, whatever the masker's configuration; in
particular the spec's example sentence is returned unmasked. -/
theorem maskContextExclusion :
    (∀ (cfg : MaskConfig) (text : String), isExcludedContext text = true →
        maskSensitiveData cfg text true = (text, [])) ∧
    maskSensitiveData {} "This is a test account AC-000000 for demo" true =
      ("This is a test account AC-000000 for demo", []) := by
  constructor
  · intro cfg text hex
    rw [maskSensitiveData]
    split
    · rfl
    · rw [if_pos ⟨rfl, hex⟩]
  · decide

/-- Witness for `maskContextExclusion` at the spec's example text (the
exclusion pattern `test\s+account` matches, so the hypothesis holds). -/
theorem maskContextExclusion_witness :
    isExcludedContext "Use example email a@b.com with demo card 4111-1111-1111-1111" = true ∧
    maskSensitiveData {} "Use example email a@b.com with demo card 4111-1111-1111-1111" true =
      ("Use example email a@b.com with demo card 4111-1111-1111-1111", []) :=
  ⟨by decide,
   maskContextExclusion.1 {} "Use example email a@b.com with demo card 4111-1111-1111-1111"
     (by decide)⟩

/-! ## Orchestrator (`src/backend/app/secure_websocket.py`)

The orchestration is `async` message handling with side effects (database
saves, model calls, socket sends); effects are modelled as a list of
`Effect` values produced in program order.  Unexpected exceptions inside
`_process_message_security`'s `try` (its final `except Exception` branch)
and inside the dispatch handlers (caught by `handle_secure_message`'s outer
`except`) are modelled by the optional fault arguments carrying the
exception's string representation. -/

/-- The pipeline stages of `_process_message_security`, recorded in the
order they actually run. -/
inductive Stage where
  | rateCheck
  | validate
  | safety
  | mask
  | sessionVal
deriving DecidableEq, Repr

/-- The dict returned by `_process_message_security` (secure_websocket.py
lines 224-252); absent keys are `none`. -/
structure SecResult where
  allowed : Bool
  processedContent : Option String := none
  llmSafe : Bool := true
  errorMessage : Option String := none
  errorCode : Option String := none
  errorDetails : Option String := none
deriving DecidableEq, Repr

structure SecCfg where
  vcfg : VConfig := {}
  mcfg : MaskConfig := {}
  /-- `logger.level <= logging.DEBUG` in the outer exception handler
  (secure_websocket.py line 185).  The module logger's own level defaults
  to `NOTSET` (0) and nothing in the repository raises it
  (`basicConfig(level=INFO)` configures the root logger only), so this
  guard is `true` in the program's default configuration; it is `false`
  only if the module logger's level is explicitly set above `DEBUG`. -/
  debugLogging : Bool := true
deriving DecidableEq, Repr

/-- `SecureWebSocketManager._process_message_security` (secure_websocket.py
lines 188-252).  Returns the limiter state, the result dict, and the list
of pipeline stages that ran.  A `fault` models an unexpected exception in
the `try` block (taken to occur before the rate check), landing in the
final `except Exception` branch. -/
def processMessageSecurity (cfg : SecCfg) (rl : RLState) (userId msgType content : String)
    (metadata : Metadata) (now : ℚ) (fault : Option String) :
    RLState × SecResult × List Stage :=
  match fault with
  | some msg =>
      (rl, { allowed := false,
             errorMessage := some "Security processing failed. Please try again.",
             errorCode := some "SECURITY_ERROR", errorDetails := some msg }, [])
  | none =>
    let c := checkRateLimit rl userId "websocket_message" now
    match c.2 with
    | .error m =>
        (c.1, { allowed := false,
                errorMessage := some "Rate limit exceeded. Please wait before sending another message.",
                errorCode := some "RATE_LIMIT_EXCEEDED", errorDetails := some m },
         [Stage.rateCheck])
    | .ok _ =>
        match validateMessage cfg.vcfg content metadata with
        | .error m =>
            (c.1, { allowed := false,
                    errorMessage := some "Message validation failed. Please check your input.",
                    errorCode := some "VALIDATION_ERROR", errorDetails := some m },
             [Stage.rateCheck, Stage.validate])
        | .ok (san, _vr) =>
            let safe := (isSafeForLLM san).1
            let masked := (maskSensitiveData cfg.mcfg san true).1
            let _sw := validateSessionData msgType
            (c.1, { allowed := true, processedContent := some masked, llmSafe := safe },
             [Stage.rateCheck, Stage.validate, Stage.safety, Stage.mask, Stage.sessionVal])

/-- A message sent over the socket (timestamps and ids omitted; absent keys
are `none`). -/
structure Payload where
  ptype : String
  content : String
  errorCode : Option String := none
  errorDetails : Option String := none
deriving DecidableEq, Repr

/-- Observable side effects of message handling, in program order. -/
inductive Effect where
  | sent (p : Payload)
  | saved (role content : String)
  | llmCalled (content : String)
deriving DecidableEq, Repr

/-- `SecureWebSocketManager.send_secure_message` (secure_websocket.py lines
98-109): outgoing content is re-validated and sanitized; if that validation
raises, the send is swallowed by the inner `except` (the message is only
logged, not sent). -/
def sendSecure (cfg : SecCfg) (p : Payload) : List Effect :=
  match validateMessage cfg.vcfg p.content [] with
  | .ok (san, _) => [.sent { p with content := san }]
  | .error _ => []

/-- `SecureWebSocketManager.handle_secure_message` (secure_websocket.py
lines 133-186) plus the dispatch handlers `_handle_secure_user_message`
(lines 254-337, with the model call abstracted to `llmGen` and the
evaluation-feedback branch omitted), `_handle_secure_assistant_message`
(lines 339-357) and `_handle_unknown_message` (lines 359-365).
`dispatchFault` models an unexpected exception raised during dispatch,
caught by the outer `except Exception` which replies with a generic
`"error"` payload whose `error_details` is the exception string only when
debug logging is enabled. -/
def handleSecureMessage (cfg : SecCfg) (rl : RLState) (userId msgType content : String)
    (metadata : Metadata) (now : ℚ) (llmGen : String → String)
    (pipelineFault dispatchFault : Option String) : RLState × List Effect :=
  let pr := processMessageSecurity cfg rl userId msgType content metadata now pipelineFault
  let res := pr.2.1
  if res.allowed = false then
    (pr.1, sendSecure cfg
      { ptype := "security_error", content := res.errorMessage.getD "",
        errorCode := res.errorCode })
  else
    match dispatchFault with
    | some msg =>
        (pr.1, sendSecure cfg
          { ptype := "error", content := "An error occurred processing your message",
            errorDetails := if cfg.debugLogging = true then some msg else none })
    | none =>
        let c := res.processedContent.getD ""
        let ackPayload : Payload :=
          ⟨"message_received", "Message received and processed securely", none, none⟩
        let warnPayload : Payload :=
          ⟨"safety_warning",
           "Your message contains content that cannot be processed by our AI system.",
           none, none⟩
        if msgType = "user_message" then
          (pr.1, Effect.saved "user" c ::
            (sendSecure cfg ackPayload ++
              (if res.llmSafe = true then
                Effect.llmCalled c :: Effect.saved "assistant" (llmGen c) ::
                  sendSecure cfg ⟨"assistant_message", llmGen c, none, none⟩
              else
                sendSecure cfg warnPayload)))
        else if msgType = "assistant_message" then
          (pr.1, Effect.saved "assistant" c ::
            sendSecure cfg ⟨"assistant_message", c, none, none⟩)
        else
          (pr.1, sendSecure cfg ⟨"error", "Unknown message type: " ++ msgType, none, none⟩)

/-! ## Claim C4: over-long messages fail validation before masking or
persistence -/

theorem sendSecure_no_saved (cfg : SecCfg) (p : Payload) (role c : String) :
    Effect.saved role c ∉ sendSecure cfg p := by
  unfold sendSecure
  split <;> simp

/-- **C4.**  If the content exceeds the configured maximum length then
`validate_message` raises `ValidationError` (producing no sanitized
output), and — provided the rate check admitted the message, so that the
pipeline reaches validation — `_process_message_security` returns a
rejection with code `VALIDATION_ERROR` whose pipeline trace never reaches
the masking stage, and `handle_secure_message` persists nothing (no
database save occurs). -/
theorem validation_short_circuit (cfg : SecCfg) (rl : RLState)
    (u msgType content : String) (md : Metadata) (now : ℚ) (llmGen : String → String)
    (hlen : cfg.vcfg.maxMessageLength < content.length)
    (hrate : ∃ r, (checkRateLimit rl u "websocket_message" now).2 = .ok r) :
    (∃ m, validateMessage cfg.vcfg content md = .error m) ∧
    (processMessageSecurity cfg rl u msgType content md now none).2.1.allowed = false ∧
    (processMessageSecurity cfg rl u msgType content md now none).2.1.errorCode =
      some "VALIDATION_ERROR" ∧
    Stage.mask ∉ (processMessageSecurity cfg rl u msgType content md now none).2.2 ∧
    (∀ role c, Effect.saved role c ∉
      (handleSecureMessage cfg rl u msgType content md now llmGen none none).2) := by
  obtain ⟨r, hr⟩ := hrate
  have hvm : validateMessage cfg.vcfg content md =
      .error ("Message too long: " ++ toString content.length ++ " chars (max: " ++
        toString cfg.vcfg.maxMessageLength ++ ")") := by
    rw [validateMessage, if_pos hlen]
  have hp : processMessageSecurity cfg rl u msgType content md now none =
      ((checkRateLimit rl u "websocket_message" now).1,
       { allowed := false,
         errorMessage := some "Message validation failed. Please check your input.",
         errorCode := some "VALIDATION_ERROR",
         errorDetails := some ("Message too long: " ++ toString content.length ++
           " chars (max: " ++ toString cfg.vcfg.maxMessageLength ++ ")") },
       [Stage.rateCheck, Stage.validate]) := by
    unfold processMessageSecurity
    dsimp only
    rw [hr, hvm]
  have hh : (handleSecureMessage cfg rl u msgType content md now llmGen none none).2 =
      sendSecure cfg ⟨"security_error", "Message validation failed. Please check your input.",
        some "VALIDATION_ERROR", none⟩ := by
    unfold handleSecureMessage
    dsimp only
    rw [hp]
    rfl
  refine ⟨⟨_, hvm⟩, ?_, ?_, ?_, ?_⟩
  · rw [hp]
  · rw [hp]
  · rw [hp]
    simp
  · intro role c
    rw [hh]
    exact sendSecure_no_saved cfg _ role c

section
set_option allowUnsafeReducibility true
attribute [local semireducible] Rat.add Rat.sub Rat.mul Rat.inv Rat.div Rat.neg
set_option maxRecDepth 4000

/-- Witness for `validation_short_circuit` at a concrete configuration
(maximum length 5) and message (7 characters) on a fresh limiter. -/
theorem validation_short_circuit_witness :
    (5 : ℕ) < ("toolong" : String).length ∧
    (processMessageSecurity ⟨⟨5, 1000⟩, {}, false⟩ (initRL 0) "u" "user_message"
        "toolong" [] 0 none).2.1.errorCode = some "VALIDATION_ERROR" ∧
    Stage.mask ∉ (processMessageSecurity ⟨⟨5, 1000⟩, {}, false⟩ (initRL 0) "u"
        "user_message" "toolong" [] 0 none).2.2 :=
  ⟨by decide,
   (validation_short_circuit ⟨⟨5, 1000⟩, {}, false⟩ (initRL 0) "u" "user_message"
     "toolong" [] 0 (fun s => s) (by decide)
     ⟨(true, ⟨"u", "websocket_message", 20, 20, none⟩), by decide⟩).2.2.1,
   (validation_short_circuit ⟨⟨5, 1000⟩, {}, false⟩ (initRL 0) "u" "user_message"
     "toolong" [] 0 (fun s => s) (by decide)
     ⟨(true, ⟨"u", "websocket_message", 20, 20, none⟩), by decide⟩).2.2.2.1⟩

end

/-! ## Claim C9: rejection responses never leak internal detail -/

theorem sendSecure_sent_fields (cfg : SecCfg) (p q : Payload)
    (hq : Effect.sent q ∈ sendSecure cfg p) :
    q.ptype = p.ptype ∧ q.errorCode = p.errorCode ∧ q.errorDetails = p.errorDetails := by
  unfold sendSecure at hq
  split at hq
  · rw [List.mem_singleton] at hq
    cases hq
    exact ⟨rfl, rfl, rfl⟩
  · simp at hq

theorem processResult_codes (cfg : SecCfg) (rl : RLState) (u t c : String)
    (md : Metadata) (now : ℚ) (pF : Option String)
    (h : (processMessageSecurity cfg rl u t c md now pF).2.1.allowed = false) :
    (processMessageSecurity cfg rl u t c md now pF).2.1.errorCode ∈
      [some "RATE_LIMIT_EXCEEDED", some "VALIDATION_ERROR", some "SECURITY_ERROR"] := by
  unfold processMessageSecurity at h ⊢
  dsimp only at h ⊢
  split at h
  · simp
  · split at h
    · simp
    · split at h
      · simp
      · simp at h

/-- **C9** (amended).  Only when the websocket module logger's level is
raised above `DEBUG` — making the guard `logger.level <= logging.DEBUG`
false, which is *not* the program's default, where the logger stays at
`NOTSET` (0) — does no message sent to the user ever carry an
`error_details` value, with every `security_error` rejection response
carrying one of the three stable codes; the response produced for an
unexpected *pipeline* exception is, regardless of logger level, a fixed
generic payload that does not depend on the exception's text at all.  (The
frozen claim fails at the program's actual default: the module logger's
own level is `NOTSET` and nothing in the repository raises it, so the
guard is true and the outer exception handler includes `str(e)` in the
user-visible response, which also carries no error code — see the
counterexample.) -/
theorem rejection_no_internal_detail :
    (∀ (cfg : SecCfg) (rl : RLState) (u t c : String) (md : Metadata) (now : ℚ)
        (llmGen : String → String) (pF dF : Option String),
        cfg.debugLogging = false →
        ∀ q, Effect.sent q ∈ (handleSecureMessage cfg rl u t c md now llmGen pF dF).2 →
          q.errorDetails = none ∧
          (q.ptype = "security_error" →
            q.errorCode ∈
              [some "RATE_LIMIT_EXCEEDED", some "VALIDATION_ERROR", some "SECURITY_ERROR"])) ∧
    (∀ (cfg : SecCfg) (rl : RLState) (u t c : String) (md : Metadata) (now : ℚ)
        (llmGen : String → String) (f : String) (dF : Option String),
        (handleSecureMessage cfg rl u t c md now llmGen (some f) dF).2 =
          sendSecure cfg ⟨"security_error", "Security processing failed. Please try again.",
            some "SECURITY_ERROR", none⟩) := by
  constructor
  · intro cfg rl u t c md now llmGen pF dF hdbg q hq
    unfold handleSecureMessage at hq
    dsimp only at hq
    split at hq
    · next hall =>
        have hf := sendSecure_sent_fields cfg _ q hq
        refine ⟨hf.2.2, ?_⟩
        intro _
        rw [hf.2.1]
        exact processResult_codes cfg rl u t c md now pF hall
    · split at hq
      · rw [hdbg] at hq
        have hf := sendSecure_sent_fields cfg _ q hq
        refine ⟨by rw [hf.2.2]; rfl, ?_⟩
        intro hpt
        rw [hf.1] at hpt
        simp at hpt
      · split at hq
        · simp only [List.mem_cons, List.mem_append] at hq
          rcases hq with hq | hq
          · cases hq
          rcases hq with hq | hq
          · have hf := sendSecure_sent_fields cfg _ q hq
            refine ⟨hf.2.2, ?_⟩
            intro hpt
            rw [hf.1] at hpt
            simp at hpt
          split at hq
          · simp only [List.mem_cons] at hq
            rcases hq with hq | hq
            · cases hq
            rcases hq with hq | hq
            · cases hq
            have hf := sendSecure_sent_fields cfg _ q hq
            refine ⟨hf.2.2, ?_⟩
            intro hpt
            rw [hf.1] at hpt
            simp at hpt
          · have hf := sendSecure_sent_fields cfg _ q hq
            refine ⟨hf.2.2, ?_⟩
            intro hpt
            rw [hf.1] at hpt
            simp at hpt
        · split at hq
          · simp only [List.mem_cons] at hq
            rcases hq with hq | hq
            · cases hq
            have hf := sendSecure_sent_fields cfg _ q hq
            refine ⟨hf.2.2, ?_⟩
            intro hpt
            rw [hf.1] at hpt
            simp at hpt
          · have hf := sendSecure_sent_fields cfg _ q hq
            refine ⟨hf.2.2, ?_⟩
            intro hpt
            rw [hf.1] at hpt
            simp at hpt
  · intro cfg rl u t c md now llmGen f dF
    rfl

section
set_option allowUnsafeReducibility true
attribute [local semireducible] Rat.add Rat.sub Rat.mul Rat.inv Rat.div Rat.neg
set_option maxRecDepth 4000

/-- Counterexample to C9 as frozen, in the program's *default*
configuration (`debugLogging = true`, since the module logger's `NOTSET`
level satisfies `logger.level <= logging.DEBUG` and nothing in the
repository raises it): an unexpected exception during dispatch (here
`"ZeroDivisionError: boom"`, raised while handling an `assistant_message`)
produces a user-visible `"error"` response that carries the raw exception
string in `error_details` — and no error code. -/
theorem rejection_no_internal_detail_counterexample :
    (handleSecureMessage ⟨{}, {}, true⟩ (initRL 0) "u" "assistant_message" "hi" [] 0
        (fun s => s) none (some "ZeroDivisionError: boom")).2 =
      [Effect.sent ⟨"error", "An error occurred processing your message", none,
        some "ZeroDivisionError: boom"⟩] := by
  decide

/-- Witness for `rejection_no_internal_detail` at a concrete rejected
message (an unexpected pipeline exception on a fresh limiter, with the
module logger raised above `DEBUG` so the guard is false). -/
theorem rejection_no_internal_detail_witness :
    (⟨{}, {}, false⟩ : SecCfg).debugLogging = false ∧
    Effect.sent ⟨"security_error", "Security processing failed. Please try again.",
        some "SECURITY_ERROR", none⟩ ∈
      (handleSecureMessage ⟨{}, {}, false⟩ (initRL 0) "u" "user_message" "hi" [] 0
        (fun s => s) (some "KeyError: scenario") none).2 ∧
    ((⟨"security_error", "Security processing failed. Please try again.",
        some "SECURITY_ERROR", none⟩ : Payload).errorDetails = none ∧
      ((⟨"security_error", "Security processing failed. Please try again.",
          some "SECURITY_ERROR", none⟩ : Payload).ptype = "security_error" →
        (⟨"security_error", "Security processing failed. Please try again.",
            some "SECURITY_ERROR", none⟩ : Payload).errorCode ∈
          [some "RATE_LIMIT_EXCEEDED", some "VALIDATION_ERROR", some "SECURITY_ERROR"])) :=
  ⟨rfl, by decide,
   rejection_no_internal_detail.1 ⟨{}, {}, false⟩ (initRL 0) "u" "user_message" "hi" [] 0
     (fun s => s) (some "KeyError: scenario") none rfl
     ⟨"security_error", "Security processing failed. Please try again.",
       some "SECURITY_ERROR", none⟩ (by decide)⟩

end

end ChatTrain

